import Mathlib

/-!
# Verification of the Cubesse veranda configurator core

A shallow embedding, in Lean 4, of the configurator's three verifiable
components — the pricing engine (`PriceCalculator`), the camera path
controller, and the scene resolution pass of `VerandaModel` — together
with the rule-based natural-language interpreter, all translated from
`next.config.mjs`.  JavaScript numbers are modeled as rationals (`ℚ`);
where a claim is about `NaN`, an explicit `JSNum` type with a `nan`
constructor is used.  Scene nodes are records with mutable-in-place
fields (visibility, material kind, scale/rotation/position, userData)
and the resolution pass is the per-node state transformer obtained from
the source's `scene.traverse` sections (per-node mutations are
independent across nodes, so the pass is a map over the node list).
-/

namespace Cubesse

/-! ## JavaScript number model with NaN (used by `calculateSideWall`) -/

/-- A JS number: either NaN or a (rational-modeled) finite value. -/
inductive JSNum where
  | nan : JSNum
  | num (q : ℚ) : JSNum
deriving DecidableEq, Repr

/-- JS subtraction: NaN propagates. -/
def jsSub : JSNum → JSNum → JSNum
  | .num a, .num b => .num (a - b)
  | _, _ => .nan

/-- JS `Math.abs`: NaN propagates. -/
def jsAbs : JSNum → JSNum
  | .num a => .num |a|
  | .nan => .nan

/-- JS `<`: any comparison with NaN is false. -/
def jsLt : JSNum → JSNum → Bool
  | .num a, .num b => decide (a < b)
  | _, _ => false

/-! ## Pricing engine -/

/-- `const PRICE_MULTIPLIER = 2.21;` -/
def PRICE_MULTIPLIER : ℚ := 221 / 100

/-- JS `Math.round`: round half toward +∞. -/
def jsRound (q : ℚ) : ℤ := ⌊q + 1/2⌋

/-- `const applyMultiplier = (price) => Math.round(price * PRICE_MULTIPLIER * 100) / 100;` -/
def applyMultiplier (price : ℚ) : ℚ := (jsRound (price * PRICE_MULTIPLIER * 100) : ℚ) / 100

/-- Association-list lookup keyed by rationals (models JS object property
access `table[key]`, which yields `undefined` on a miss). -/
def alookup {α : Type} (l : List (ℚ × α)) (k : ℚ) : Option α :=
  match l.find? (fun p => p.1 == k) with
  | some p => some p.2
  | none => none

/-- `CastorPricing.polycarbonateRoof.depths`.  JS enumerates integer-like
object keys in ascending numeric order, and the source additionally sorts
them ascending, so the embedding keeps the rows in that (already sorted)
order. -/
def castorPolycarbonateDepths : List (ℚ × List (ℚ × ℚ)) :=
  [ (2000, [(3060, 780), (4060, 920), (5060, 1025), (6060, 1150), (7060, 1300), (8060, 1500), (9060, 1800), (10060, 1950)])
  , (2500, [(3060, 900), (4060, 1050), (5060, 1250), (6060, 1425), (7060, 1575), (8060, 1700), (9060, 2100), (10060, 2250)])
  , (3000, [(3060, 1050), (4060, 1225), (5060, 1400), (6060, 1525), (7060, 1700), (8060, 1825), (9060, 2350), (10060, 2600)])
  , (3500, [(3060, 1225), (4060, 1375), (5060, 1500), (6060, 1700), (7060, 1850), (8060, 2000), (9060, 2450), (10060, 2800)])
  , (4000, [(3060, 1350), (4060, 1475), (5060, 1650), (6060, 1875), (7060, 2000), (8060, 2150), (9060, 2575), (10060, 2950)])
  , (5000, [(3060, 1500), (4060, 1850), (5060, 2150), (6060, 2450), (7060, 2850), (8060, 3125), (9060, 3325), (10060, 3650)])
  , (6000, [(3060, 1850), (4060, 2250), (5060, 2700), (6060, 3100), (7060, 3550), (8060, 3950), (9060, 4250), (10060, 4500)]) ]

/-- `CastorPricing.glassRoof.depths`. -/
def castorGlassDepths : List (ℚ × List (ℚ × ℚ)) :=
  [ (2000, [(3060, 1275), (4060, 1500), (5060, 1700), (6060, 1900), (7060, 2150), (8060, 2350), (9060, 2650), (10060, 2900)])
  , (2500, [(3060, 1475), (4060, 1675), (5060, 1900), (6060, 2100), (7060, 2375), (8060, 2600), (9060, 3000), (10060, 3250)])
  , (3000, [(3060, 1650), (4060, 1875), (5060, 2100), (6060, 2300), (7060, 2600), (8060, 2870), (9060, 3300), (10060, 3550)])
  , (3500, [(3060, 1975), (4060, 2300), (5060, 2575), (6060, 2900), (7060, 3100), (8060, 3450), (9060, 4000), (10060, 4350)])
  , (4000, [(3060, 2200), (4060, 2580), (5060, 2850), (6060, 3200), (7060, 3500), (8060, 3800), (9060, 4500), (10060, 4900)]) ]

/-- `TitanPricing.polycarbonateRoof.depths`. -/
def titanPolycarbonateDepths : List (ℚ × List (ℚ × ℚ)) :=
  [ (2000, [(3060, 860), (4060, 955), (5060, 1125), (6060, 1295), (7060, 1525), (8060, 1635), (9060, 1945), (10060, 2030)])
  , (2500, [(3060, 935), (4060, 1065), (5060, 1255), (6060, 1450), (7060, 1610), (8060, 1745), (9060, 2180), (10060, 2295)])
  , (3000, [(3060, 1015), (4060, 1165), (5060, 1455), (6060, 1575), (7060, 1765), (8060, 1895), (9060, 2385), (10060, 2670)])
  , (3500, [(3060, 1205), (4060, 1385), (5060, 1560), (6060, 1810), (7060, 1965), (8060, 2090), (9060, 2540), (10060, 2880)])
  , (4000, [(3060, 1365), (4060, 1570), (5060, 1785), (6060, 1965), (7060, 2090), (8060, 2210), (9060, 2695), (10060, 3150)])
  , (4500, [(3060, 1620), (4060, 1775), (5060, 1985), (6060, 2300), (7060, 2590), (8060, 2890), (9060, 3095), (10060, 3620)]) ]

/-- `TitanPricing.glassRoof.clear.depths`. -/
def titanGlassClearDepths : List (ℚ × List (ℚ × ℚ)) :=
  [ (2000, [(3060, 1260), (4060, 1505), (5060, 1755), (6060, 1995), (7060, 2245), (8060, 2460), (9060, 2965), (10060, 3285)])
  , (2500, [(3060, 1400), (4060, 1655), (5060, 1895), (6060, 2125), (7060, 2365), (8060, 2605), (9060, 3140), (10060, 3410)])
  , (3000, [(3060, 1630), (4060, 1840), (5060, 2190), (6060, 2350), (7060, 2895), (8060, 3050), (9060, 3400), (10060, 3800)])
  , (3500, [(3060, 2050), (4060, 2285), (5060, 2660), (6060, 3050), (7060, 3690), (8060, 3900), (9060, 4150), (10060, 4600)])
  , (4000, [(3060, 2440), (4060, 2675), (5060, 3050), (6060, 3450), (7060, 4060), (8060, 4700), (9060, 5100), (10060, 5280)]) ]

/-- `TitanPricing.ledLighting.single = 12`. -/
def ledSingle : ℚ := 12

/-- `TitanPricing.ledLighting.sets`. -/
def ledSets : List (ℚ × ℚ) := [(6, 160), (8, 180), (10, 200), (12, 220), (14, 340), (16, 360), (18, 380)]

/-- `SideWallsPricing.zijwandPolycarbonate`. -/
def zijwandPolycarbonate : List (ℚ × ℚ) :=
  [(2000, 260), (2500, 315), (3000, 335), (3500, 370), (4000, 395), (4500, 465), (5000, 510)]

/-- The `Array.prototype.reduce` call used by `findClosestDimension` and
`calculateSideWall` over a non-empty key list `k0 :: ks`:
`reduce((prev, curr) => Math.abs(curr - t) < Math.abs(prev - t) ? curr : prev)`. -/
def reduceClosest (t : ℚ) (k0 : ℚ) (ks : List ℚ) : ℚ :=
  ks.foldl (fun prev curr => if |curr - t| < |prev - t| then curr else prev) k0

/-- `PriceCalculator.findClosestDimension(dimensions, targetDepth, targetWidth)`:
snap the depth to the closest depth key, then the width to the closest
width key of the chosen depth's row.  The `(0, 0)` branches model the
empty-table case on which the JS `reduce` would throw; every table in the
source is non-empty so they are never reached under the theorems'
hypotheses. -/
def findClosestDimension (dimensions : List (ℚ × List (ℚ × ℚ)))
    (targetDepth targetWidth : ℚ) : ℚ × ℚ :=
  match dimensions.map Prod.fst with
  | [] => (0, 0)
  | d0 :: ds =>
    let closestDepth := reduceClosest targetDepth d0 ds
    let row := (alookup dimensions closestDepth).getD []
    match row.map Prod.fst with
    | [] => (closestDepth, 0)
    | w0 :: ws => (closestDepth, reduceClosest targetWidth w0 ws)

/-- Result of `calculateLEDLighting`. -/
inductive LightingResult where
  | ok (wholesale retail lightCount : ℚ) : LightingResult
  | error (msg : String) : LightingResult
deriving DecidableEq, Repr

/-- `PriceCalculator.calculateLEDLighting(lightCount)`: a count of exactly 1
uses the single-unit price; otherwise the sets table is consulted with a JS
truthiness test (`undefined` and `0` both fail it); otherwise `{error}`. -/
def calculateLEDLighting (lightCount : ℚ) : LightingResult :=
  if lightCount = 1 then
    .ok ledSingle (applyMultiplier ledSingle) lightCount
  else
    match alookup ledSets lightCount with
    | some p => if p = 0 then .error "Invalid light count"
                else .ok p (applyMultiplier p) lightCount
    | none => .error "Invalid light count"

/-- Result of `calculateSideWall`. -/
inductive SideWallResult where
  | ok (wholesale retail depth : ℚ) : SideWallResult
  | error (msg : String) : SideWallResult
deriving DecidableEq, Repr

/-- The depth keys of `SideWallsPricing.zijwandPolycarbonate` in JS
enumeration order (ascending). -/
def sideWallDepthKeys : List ℚ := zijwandPolycarbonate.map Prod.fst

/-- `PriceCalculator.calculateSideWall(depth)`: reduce the fixed depth keys
to the closest one (NaN-aware: with a NaN target every comparison is false,
so the reduce keeps its first element), look up its price, and fail on a JS
falsy price (`undefined`/`0`). -/
def calculateSideWall (depth : JSNum) : SideWallResult :=
  match sideWallDepthKeys with
  | [] => .error "Invalid depth"
  | k0 :: ks =>
    let closestDepth := ks.foldl
      (fun prev curr =>
        if jsLt (jsAbs (jsSub (.num curr) depth)) (jsAbs (jsSub (.num prev) depth))
        then curr else prev) k0
    match alookup zijwandPolycarbonate closestDepth with
    | some basePrice =>
        if basePrice = 0 then .error "Invalid depth"
        else .ok basePrice (applyMultiplier basePrice) closestDepth
    | none => .error "Invalid depth"

/-- Roof component of `calculateCompleteVeranda` (never errors in the
source; `getD` models the JS property access). -/
structure RoofResult where
  wholesale : ℚ
  retail : ℚ
deriving DecidableEq, Repr

/-- Table selection in `calculateVerandaRoof`. -/
def roofPricingTable (model roofType : String) : List (ℚ × List (ℚ × ℚ)) :=
  if model.toLower = "castor" then
    if roofType = "polycarbonate" then castorPolycarbonateDepths else castorGlassDepths
  else
    if roofType = "polycarbonate" then titanPolycarbonateDepths else titanGlassClearDepths

/-- `PriceCalculator.calculateVerandaRoof(config)` (the `dimensions` echo
field is omitted; only prices feed the total). -/
def calculateVerandaRoof (model roofType : String) (depth width : ℚ) : RoofResult :=
  let pricing := roofPricingTable model roofType
  let coords := findClosestDimension pricing depth width
  let basePrice := (((alookup pricing coords.1).getD []).foldr
    (fun p acc => if p.1 == coords.2 then some p.2 else acc) none).getD 0
  { wholesale := basePrice, retail := applyMultiplier basePrice }

/-- Input of `calculateCompleteVeranda` (after its destructuring defaults). -/
structure VerandaConfig where
  model : String
  roofType : String
  depth : ℚ
  width : ℚ
  enclosuresLeft : Bool
  enclosuresRight : Bool
  lighting : ℚ
deriving DecidableEq, Repr

/-- Output of `calculateCompleteVeranda`. -/
structure VerandaResults where
  roof : RoofResult
  enclosuresLeft : Option SideWallResult
  enclosuresRight : Option SideWallResult
  lighting : Option LightingResult
  totalWholesale : ℚ
  totalRetail : ℚ
deriving DecidableEq, Repr

/-- The `forEach` accumulation over `results.enclosures`: an erroring
enclosure contributes nothing. -/
def enclosureContribW : Option SideWallResult → ℚ
  | some (.ok w _ _) => w
  | _ => 0

def enclosureContribR : Option SideWallResult → ℚ
  | some (.ok _ r _) => r
  | _ => 0

/-- The lighting contribution: `if (results.lighting && !results.lighting.error)`. -/
def lightingContribW : Option LightingResult → ℚ
  | some (.ok w _ _) => w
  | _ => 0

def lightingContribR : Option LightingResult → ℚ
  | some (.ok _ r _) => r
  | _ => 0

/-- `PriceCalculator.calculateCompleteVeranda(config)`: roof always priced;
side walls priced per enabled flag; lighting priced when count > 0; the
total starts from the roof and accumulates only non-error components. -/
def calculateCompleteVeranda (cfg : VerandaConfig) : VerandaResults :=
  let roof := calculateVerandaRoof cfg.model cfg.roofType cfg.depth cfg.width
  let encL := if cfg.enclosuresLeft then some (calculateSideWall (.num cfg.depth)) else none
  let encR := if cfg.enclosuresRight then some (calculateSideWall (.num cfg.depth)) else none
  let lighting := if cfg.lighting > 0 then some (calculateLEDLighting cfg.lighting) else none
  { roof := roof
    enclosuresLeft := encL
    enclosuresRight := encR
    lighting := lighting
    totalWholesale := roof.wholesale + enclosureContribW encL + enclosureContribW encR
      + lightingContribW lighting
    totalRetail := roof.retail + enclosureContribR encL + enclosureContribR encR
      + lightingContribR lighting }

/-! ## The host's pricing `useMemo` (C9) -/

/-- The JS values compared by `sideEnclosureTypes.left !== 'none'` in the
host's pricing `useMemo`: a side entry is an object `{material, glassType}`,
while `'none'` is a string. -/
inductive JSValue where
  | str (s : String) : JSValue
  | obj (material glassTypeField : String) : JSValue
deriving DecidableEq, Repr

/-- JS strict equality `===` for the values above: a string equals a string
with the same contents; an object is never `===` a string.  (Object-object
identity never arises at the compared site.) -/
def jsStrictEq : JSValue → JSValue → Bool
  | .str a, .str b => a == b
  | _, _ => false

/-- The `config` object assembled by `VerandaConfiguratorFinal`'s pricing
`useMemo`: left/right enclosure flags are
`enclosureEnabled && sideEnclosureTypes.side !== 'none'`. -/
def hostPricingConfig (enclosureEnabled : Bool) (leftEntry rightEntry : JSValue)
    (lightsOn : Bool) (width depth : ℚ) : VerandaConfig :=
  { model := "castor"
    roofType := "polycarbonate"
    depth := depth * 1000
    width := width * 1000
    enclosuresLeft := enclosureEnabled && !(jsStrictEq leftEntry (.str "none"))
    enclosuresRight := enclosureEnabled && !(jsStrictEq rightEntry (.str "none"))
    lighting := if lightsOn then 10 else 0 }

/-! ## Generic facts about the `reduce`-based nearest lookup -/

/-- A fold whose step always returns one of its two arguments produces an
element of `a :: l`. -/
theorem foldl_choice {α : Type} (f : α → α → α)
    (hf : ∀ a b, f a b = a ∨ f a b = b) :
    ∀ (l : List α) (a : α), l.foldl f a ∈ a :: l := by
  intro l
  induction l with
  | nil => intro a; simp
  | cons c cs ih =>
    intro a
    rw [List.foldl_cons]
    rcases hf a c with h | h <;> rw [h]
    · rcases List.mem_cons.mp (ih a) with h' | h' <;> simp [h', List.mem_cons]
    · rcases List.mem_cons.mp (ih c) with h' | h' <;> simp [h', List.mem_cons]

/-- The nearest-key `reduce` on an ascending key list returns a key of the
list that minimizes the distance to the target, and on an exact tie the
lower (earlier) key wins, because the comparison is strict. -/
theorem reduceClosest_spec (t : ℚ) :
    ∀ (ks : List ℚ) (k0 : ℚ), (k0 :: ks).Pairwise (· ≤ ·) →
      reduceClosest t k0 ks ∈ k0 :: ks ∧
      (∀ k ∈ k0 :: ks, |reduceClosest t k0 ks - t| ≤ |k - t|) ∧
      (∀ k ∈ k0 :: ks, |k - t| = |reduceClosest t k0 ks - t| → reduceClosest t k0 ks ≤ k) := by
  intro ks
  induction ks with
  | nil =>
    intro k0 _
    refine ⟨by simp [reduceClosest], ?_, ?_⟩ <;> intro k hk <;> simp_all [reduceClosest]
  | cons c cs ih =>
    intro k0 hsorted
    obtain ⟨k0', hk0'⟩ : ∃ x, (if |c - t| < |k0 - t| then c else k0) = x := ⟨_, rfl⟩
    have hstep : reduceClosest t k0 (c :: cs) = reduceClosest t k0' cs := by
      rw [← hk0']
      by_cases h : |c - t| < |k0 - t| <;> simp [reduceClosest, List.foldl_cons, h]
    have hk0c : k0 ≤ c := (List.pairwise_cons.mp hsorted).1 c (by simp)
    have hk0ks : ∀ x ∈ cs, k0 ≤ x := fun x hx =>
      (List.pairwise_cons.mp hsorted).1 x (by simp [hx])
    have hccs : ∀ x ∈ cs, c ≤ x := fun x hx =>
      (List.pairwise_cons.mp (List.pairwise_cons.mp hsorted).2).1 x hx
    have hcs : cs.Pairwise (· ≤ ·) :=
      (List.pairwise_cons.mp (List.pairwise_cons.mp hsorted).2).2
    have hcases : k0' = c ∧ |c - t| < |k0 - t| ∨ k0' = k0 ∧ |k0 - t| ≤ |c - t| := by
      by_cases h : |c - t| < |k0 - t|
      · left; rw [← hk0']; exact ⟨by simp [h], h⟩
      · right; rw [← hk0']; exact ⟨by simp [h], le_of_not_lt h⟩
    have hsorted' : (k0' :: cs).Pairwise (· ≤ ·) := by
      refine List.pairwise_cons.mpr ⟨?_, hcs⟩
      intro x hx
      rcases hcases with ⟨he, _⟩ | ⟨he, _⟩
      · exact he ▸ hccs x hx
      · exact he ▸ hk0ks x hx
    obtain ⟨ihmem, ihmin, ihtie⟩ := ih k0' hsorted'
    have hmink0' : |reduceClosest t k0' cs - t| ≤ |k0' - t| := ihmin k0' (by simp)
    have hdist : |k0' - t| ≤ |k0 - t| ∧ |k0' - t| ≤ |c - t| := by
      rcases hcases with ⟨he, hlt⟩ | ⟨he, hle⟩
      · exact ⟨he ▸ le_of_lt hlt, he ▸ le_refl _⟩
      · exact ⟨he ▸ le_refl _, he ▸ hle⟩
    refine ⟨?_, ?_, ?_⟩ <;> rw [hstep]
    · rcases List.mem_cons.mp ihmem with h | h
      · rcases hcases with ⟨he, _⟩ | ⟨he, _⟩ <;> rw [h, he] <;> simp [List.mem_cons]
      · simp [List.mem_cons, h]
    · intro k hk
      rcases List.mem_cons.mp hk with h | h
      · exact h ▸ le_trans hmink0' hdist.1
      rcases List.mem_cons.mp h with h' | h'
      · exact h' ▸ le_trans hmink0' hdist.2
      · exact ihmin k (by simp [h'])
    · intro k hk htie
      rcases List.mem_cons.mp hk with h | h
      · subst h
        rcases hcases with ⟨he, hlt⟩ | ⟨he, _⟩
        · exfalso
          have h1 : |reduceClosest t k0' cs - t| ≤ |c - t| := le_trans hmink0' hdist.2
          have h2 : |c - t| < |reduceClosest t k0' cs - t| := htie ▸ hlt
          exact absurd (lt_of_le_of_lt h1 h2) (lt_irrefl _)
        · exact ihtie k (by simp [he]) htie
      rcases List.mem_cons.mp h with h' | h'
      · subst h'
        rcases hcases with ⟨he, _⟩ | ⟨he, hle⟩
        · exact ihtie k (by simp [he]) htie
        · have h1 : |reduceClosest t k0' cs - t| ≤ |k0 - t| := le_trans hmink0' hdist.1
          have h3 : |k0 - t| = |reduceClosest t k0' cs - t| :=
            le_antisymm (htie ▸ hle) h1
          have h4 : reduceClosest t k0' cs ≤ k0 := ihtie k0 (by simp [he]) h3
          exact le_trans h4 hk0c
      · exact ihtie k (by simp [h']) htie

/-- A key present among the firsts of an association list is found by
`alookup`, and the found pair is in the list. -/
theorem alookup_mem {α : Type} (l : List (ℚ × α)) (k : ℚ)
    (h : k ∈ l.map Prod.fst) : ∃ v, alookup l k = some v ∧ (k, v) ∈ l := by
  induction l with
  | nil => simp at h
  | cons p ps ih =>
    by_cases hpk : p.1 = k
    · exact ⟨p.2, by simp [alookup, List.find?, hpk], by simp [← hpk]⟩
    · have hk : k ∈ ps.map Prod.fst := by
        rcases List.mem_cons.mp (show k ∈ p.1 :: ps.map Prod.fst by simpa using h)
          with h1 | h1
        · exact absurd h1.symm hpk
        · exact h1
      obtain ⟨v, hv, hmem⟩ := ih hk
      have hbeq : (p.1 == k) = false := by simp [hpk]
      exact ⟨v, by simpa [alookup, List.find?, hbeq] using hv, by simp [hmem]⟩

/-- `alookup` only returns pairs of the list. -/
theorem alookup_eq_some_mem {α : Type} {l : List (ℚ × α)} {k : ℚ} {v : α}
    (h : alookup l k = some v) : (k, v) ∈ l := by
  unfold alookup at h
  cases hf : l.find? (fun p => p.1 == k) with
  | none => rw [hf] at h; simp at h
  | some p =>
    rw [hf] at h
    have hmem := List.mem_of_find?_eq_some hf
    have hpred := List.find?_some hf
    have hk : p.1 = k := by simpa using hpred
    have hv : p.2 = v := by simpa using h
    have : p = (k, v) := by cases p; simp_all
    exact this ▸ hmem

/-- Unfolding equation of `findClosestDimension` on a non-empty table. -/
theorem findClosestDimension_cons (p : ℚ × List (ℚ × ℚ)) (rest : List (ℚ × List (ℚ × ℚ)))
    (td tw : ℚ) :
    findClosestDimension (p :: rest) td tw =
      (match ((alookup (p :: rest) (reduceClosest td p.1 (rest.map Prod.fst))).getD []).map
          Prod.fst with
       | [] => (reduceClosest td p.1 (rest.map Prod.fst), 0)
       | w0 :: ws => (reduceClosest td p.1 (rest.map Prod.fst), reduceClosest tw w0 ws)) := rfl

/-- C5: the roof price lookup snaps the depth to the nearest available
depth bucket first, then snaps the width to the nearest available width
bucket within the chosen depth's row — each axis independently, never
jointly and never interpolating — and on an exact distance tie between two
bucket keys the lower key wins, because the `reduce` keeps the earlier
element of the ascending-sorted key list under a strict comparison. -/
theorem findClosestDimension_snaps_each_axis
    (dims : List (ℚ × List (ℚ × ℚ))) (targetDepth targetWidth : ℚ)
    (hne : dims ≠ [])
    (hd : (dims.map Prod.fst).Pairwise (· ≤ ·))
    (hrows : ∀ p ∈ dims, p.2 ≠ [] ∧ (p.2.map Prod.fst).Pairwise (· ≤ ·)) :
    (findClosestDimension dims targetDepth targetWidth).1 ∈ dims.map Prod.fst ∧
    (∀ d ∈ dims.map Prod.fst,
      |(findClosestDimension dims targetDepth targetWidth).1 - targetDepth|
        ≤ |d - targetDepth|) ∧
    (∀ d ∈ dims.map Prod.fst,
      |d - targetDepth| = |(findClosestDimension dims targetDepth targetWidth).1 - targetDepth| →
        (findClosestDimension dims targetDepth targetWidth).1 ≤ d) ∧
    ∃ row, alookup dims (findClosestDimension dims targetDepth targetWidth).1 = some row ∧
      (findClosestDimension dims targetDepth targetWidth).2 ∈ row.map Prod.fst ∧
      (∀ w ∈ row.map Prod.fst,
        |(findClosestDimension dims targetDepth targetWidth).2 - targetWidth|
          ≤ |w - targetWidth|) ∧
      (∀ w ∈ row.map Prod.fst,
        |w - targetWidth|
            = |(findClosestDimension dims targetDepth targetWidth).2 - targetWidth| →
          (findClosestDimension dims targetDepth targetWidth).2 ≤ w) := by
  cases dims with
  | nil => exact absurd rfl hne
  | cons p rest =>
    obtain ⟨hdmem, hdmin, hdtie⟩ :=
      reduceClosest_spec targetDepth (rest.map Prod.fst) p.1 (by simpa using hd)
    obtain ⟨row, hlook, hpairmem⟩ :=
      alookup_mem (p :: rest) (reduceClosest targetDepth p.1 (rest.map Prod.fst))
        (by simpa using hdmem)
    obtain ⟨hrowne, hrowsorted⟩ := hrows _ hpairmem
    cases row with
    | nil => exact absurd rfl hrowne
    | cons q qs =>
      obtain ⟨hwmem, hwmin, hwtie⟩ :=
        reduceClosest_spec targetWidth (qs.map Prod.fst) q.1 (by simpa using hrowsorted)
      have heq : findClosestDimension (p :: rest) targetDepth targetWidth
          = (reduceClosest targetDepth p.1 (rest.map Prod.fst),
             reduceClosest targetWidth q.1 (qs.map Prod.fst)) := by
        rw [findClosestDimension_cons, hlook]
        rfl
      rw [heq]
      refine ⟨by simpa using hdmem, ?_, ?_, ⟨q :: qs, hlook, by simpa using hwmem, ?_, ?_⟩⟩
      · intro d hdm; exact hdmin d (by simpa using hdm)
      · intro d hdm htie; exact hdtie d (by simpa using hdm) htie
      · intro w hwm; exact hwmin w (by simpa using hwm)
      · intro w hwm htie; exact hwtie w (by simpa using hwm) htie

/-- Witness for C5: the Castor polycarbonate table at depth target 3250
(exactly between the 3000 and 3500 buckets) and width target 4000. -/
theorem findClosestDimension_snaps_each_axis_witness :
    (castorPolycarbonateDepths ≠ [] ∧
     (castorPolycarbonateDepths.map Prod.fst).Pairwise (· ≤ ·) ∧
     (∀ p ∈ castorPolycarbonateDepths, p.2 ≠ [] ∧ (p.2.map Prod.fst).Pairwise (· ≤ ·))) ∧
    ((findClosestDimension castorPolycarbonateDepths 3250 4000).1
        ∈ castorPolycarbonateDepths.map Prod.fst ∧
     (∀ d ∈ castorPolycarbonateDepths.map Prod.fst,
       |(findClosestDimension castorPolycarbonateDepths 3250 4000).1 - 3250| ≤ |d - 3250|) ∧
     (∀ d ∈ castorPolycarbonateDepths.map Prod.fst,
       |d - 3250| = |(findClosestDimension castorPolycarbonateDepths 3250 4000).1 - 3250| →
         (findClosestDimension castorPolycarbonateDepths 3250 4000).1 ≤ d) ∧
     ∃ row, alookup castorPolycarbonateDepths
          (findClosestDimension castorPolycarbonateDepths 3250 4000).1 = some row ∧
        (findClosestDimension castorPolycarbonateDepths 3250 4000).2 ∈ row.map Prod.fst ∧
        (∀ w ∈ row.map Prod.fst,
          |(findClosestDimension castorPolycarbonateDepths 3250 4000).2 - 4000|
            ≤ |w - 4000|) ∧
        (∀ w ∈ row.map Prod.fst,
          |w - 4000| = |(findClosestDimension castorPolycarbonateDepths 3250 4000).2 - 4000| →
            (findClosestDimension castorPolycarbonateDepths 3250 4000).2 ≤ w)) :=
  ⟨⟨by decide, by decide, by decide⟩,
   findClosestDimension_snaps_each_axis castorPolycarbonateDepths 3250 4000
     (by decide) (by decide) (by decide)⟩

/-- C10: `calculateSideWall` is total — for every numeric depth input,
including NaN and values far outside the table, the `reduce` over the fixed
non-empty depth table selects an existing key whose price is defined and
non-zero, so the function returns a price object and the
`{error: 'Invalid depth'}` branch is unreachable. -/
theorem calculateSideWall_never_errors (depth : JSNum) :
    ∃ w r d, calculateSideWall depth = .ok w r d ∧ (d, w) ∈ zijwandPolycarbonate := by
  have heq : calculateSideWall depth =
      (match alookup zijwandPolycarbonate
          (([2500, 3000, 3500, 4000, 4500, 5000] : List ℚ).foldl
            (fun prev curr =>
              if jsLt (jsAbs (jsSub (.num curr) depth)) (jsAbs (jsSub (.num prev) depth))
              then curr else prev) 2000) with
       | some basePrice =>
           if basePrice = 0 then .error "Invalid depth"
           else .ok basePrice (applyMultiplier basePrice)
             (([2500, 3000, 3500, 4000, 4500, 5000] : List ℚ).foldl
               (fun prev curr =>
                 if jsLt (jsAbs (jsSub (.num curr) depth)) (jsAbs (jsSub (.num prev) depth))
                 then curr else prev) 2000)
       | none => .error "Invalid depth") := rfl
  obtain ⟨cd, hcd⟩ : ∃ x, (([2500, 3000, 3500, 4000, 4500, 5000] : List ℚ).foldl
      (fun prev curr =>
        if jsLt (jsAbs (jsSub (.num curr) depth)) (jsAbs (jsSub (.num prev) depth))
        then curr else prev) 2000) = x := ⟨_, rfl⟩
  have hmem : cd ∈ ((2000 : ℚ) :: [2500, 3000, 3500, 4000, 4500, 5000]) := by
    rw [← hcd]
    exact foldl_choice _ (fun a b => by split <;> simp) _ _
  rw [hcd] at heq
  simp only [List.mem_cons, List.mem_singleton, List.not_mem_nil, or_false] at hmem
  rcases hmem with rfl | rfl | rfl | rfl | rfl | rfl | rfl <;> rw [heq]
  · exact ⟨260, applyMultiplier 260, 2000, rfl, by decide⟩
  · exact ⟨315, applyMultiplier 315, 2500, rfl, by decide⟩
  · exact ⟨335, applyMultiplier 335, 3000, rfl, by decide⟩
  · exact ⟨370, applyMultiplier 370, 3500, rfl, by decide⟩
  · exact ⟨395, applyMultiplier 395, 4000, rfl, by decide⟩
  · exact ⟨465, applyMultiplier 465, 4500, rfl, by decide⟩
  · exact ⟨510, applyMultiplier 510, 5000, rfl, by decide⟩

/-- C6: the lighting component prices a count of exactly 1 with the
distinct single-unit wholesale price 12; a count found in the sets table
gets that table price; any other positive count yields a component-level
`{error}` marker without throwing; and `calculateCompleteVeranda` skips the
erroring lighting component, so its totals equal those of the same
configuration with no lighting — the breakdown never fails. -/
theorem calculateLEDLighting_spec :
    (calculateLEDLighting 1 = .ok 12 (applyMultiplier 12) 1) ∧
    (∀ n p, alookup ledSets n = some p →
      calculateLEDLighting n = .ok p (applyMultiplier p) n) ∧
    (∀ n : ℚ, 0 < n → n ≠ 1 → alookup ledSets n = none →
      calculateLEDLighting n = .error "Invalid light count") ∧
    (∀ cfg : VerandaConfig, 0 < cfg.lighting → cfg.lighting ≠ 1 →
      alookup ledSets cfg.lighting = none →
      (calculateCompleteVeranda cfg).lighting = some (.error "Invalid light count") ∧
      (calculateCompleteVeranda cfg).totalWholesale
        = (calculateCompleteVeranda { cfg with lighting := 0 }).totalWholesale ∧
      (calculateCompleteVeranda cfg).totalRetail
        = (calculateCompleteVeranda { cfg with lighting := 0 }).totalRetail) := by
  have herr : ∀ n : ℚ, n ≠ 1 → alookup ledSets n = none →
      calculateLEDLighting n = .error "Invalid light count" := by
    intro n hne1 hnone
    unfold calculateLEDLighting
    rw [if_neg hne1, hnone]
  refine ⟨rfl, ?_, fun n _ => herr n, ?_⟩
  · intro n p h
    have hmem := alookup_eq_some_mem h
    have hfacts : ∀ q ∈ ledSets, q.1 ≠ 1 ∧ ¬(q.2 = 0) := by decide
    have hne1 : n ≠ 1 := (hfacts _ hmem).1
    have hp0 : ¬(p = 0) := (hfacts _ hmem).2
    unfold calculateLEDLighting
    rw [if_neg hne1, h]
    exact if_neg hp0
  · intro cfg h1 h2 h3
    have hlight : calculateLEDLighting cfg.lighting = .error "Invalid light count" :=
      herr _ h2 h3
    refine ⟨?_, ?_, ?_⟩ <;>
      simp [calculateCompleteVeranda, hlight, h1, lt_irrefl, lightingContribW,
        lightingContribR]

/-- Witness for C6 at the exact-table-hit count 10 and the erroring count 7. -/
theorem calculateLEDLighting_spec_witness :
    (alookup ledSets 10 = some 200 ∧
     calculateLEDLighting 10 = .ok 200 (applyMultiplier 200) 10) ∧
    ((0 : ℚ) < 7 ∧ (7 : ℚ) ≠ 1 ∧ alookup ledSets 7 = none ∧
     calculateLEDLighting 7 = .error "Invalid light count") :=
  ⟨⟨by decide, calculateLEDLighting_spec.2.1 10 200 (by decide)⟩,
   ⟨by decide, by decide, by decide,
    calculateLEDLighting_spec.2.2.1 7 (by decide) (by decide) (by decide)⟩⟩

/-- C9: in the host's pricing `useMemo`, the per-side guard compares the
side's `sideEnclosureTypes` entry — an object — to the string `'none'` with
`!==`, which is always true; so whenever `enclosureEnabled` is true, both
side-wall components are included in the breakdown regardless of each
side's configured material (including `'open'`). -/
theorem hostPricing_includes_both_sides
    (matL gtL matR gtR : String) (lightsOn : Bool) (width depth : ℚ) :
    jsStrictEq (.obj matL gtL) (.str "none") = false ∧
    (hostPricingConfig true (.obj matL gtL) (.obj matR gtR) lightsOn width depth).enclosuresLeft
      = true ∧
    (hostPricingConfig true (.obj matL gtL) (.obj matR gtR) lightsOn
        width depth).enclosuresRight = true ∧
    (calculateCompleteVeranda
        (hostPricingConfig true (.obj matL gtL) (.obj matR gtR) lightsOn
          width depth)).enclosuresLeft
      = some (calculateSideWall (.num (depth * 1000))) ∧
    (calculateCompleteVeranda
        (hostPricingConfig true (.obj matL gtL) (.obj matR gtR) lightsOn
          width depth)).enclosuresRight
      = some (calculateSideWall (.num (depth * 1000))) := by
  refine ⟨rfl, rfl, rfl, ?_, ?_⟩ <;>
    simp [calculateCompleteVeranda, hostPricingConfig, jsStrictEq]

/-! ## Camera path controller (`CameraController`) -/

/-- JS truncation toward zero (`Math.trunc`), as used implicitly by the
`%` remainder operator. -/
def ratTrunc (q : ℚ) : ℤ := if 0 ≤ q then ⌊q⌋ else -⌊-q⌋

/-- JS `x % 1`: remainder with the sign of the dividend, `x - trunc x`. -/
def jsMod1 (x : ℚ) : ℚ := x - ratTrunc x

/-- `((x % 1) + 1) % 1` — the circular wrap applied to `pathProgress` in
`handlePointerMove`. -/
def jsWrap01 (x : ℚ) : ℚ := jsMod1 (jsMod1 x + 1)

theorem jsMod1_of_nonneg (x : ℚ) (h : 0 ≤ x) : jsMod1 x = Int.fract x := by
  unfold jsMod1 ratTrunc
  rw [if_pos h, Int.self_sub_floor]

theorem jsMod1_bounds (x : ℚ) : -1 < jsMod1 x ∧ jsMod1 x < 1 := by
  by_cases h : 0 ≤ x
  · rw [jsMod1_of_nonneg x h]
    constructor
    · linarith [Int.fract_nonneg x]
    · exact Int.fract_lt_one x
  · have : jsMod1 x = -Int.fract (-x) := by
      unfold jsMod1 ratTrunc
      rw [if_neg h]
      push_cast
      rw [Int.fract]
      ring
    rw [this]
    constructor
    · simpa using Int.fract_lt_one (-x)
    · have h0 := Int.fract_nonneg (-x)
      linarith

theorem jsWrap01_mem (x : ℚ) : 0 ≤ jsWrap01 x ∧ jsWrap01 x < 1 := by
  obtain ⟨h1, h2⟩ := jsMod1_bounds x
  have hpos : 0 ≤ jsMod1 x + 1 := by linarith
  unfold jsWrap01
  rw [jsMod1_of_nonneg _ hpos]
  exact ⟨Int.fract_nonneg _, Int.fract_lt_one _⟩

/-- State captured by the quick-jump animation closure: the `startProgress`
/ `startHeight` consts and the computed targets. -/
structure AnimState where
  startProgress : ℚ
  startHeight : ℚ
  targetProgress : ℚ
  targetHeight : ℚ
deriving DecidableEq, Repr

/-- The controller's refs: `pathProgressRef`, `cameraHeightRef`,
`zoomDistanceRef`, `lastPinchDistanceRef`, `verticalDragAccumulator`,
`isDraggingRef`, `lastMousePosRef`, plus the live jump animation, if any. -/
structure CamState where
  pathProgress : ℚ
  cameraHeight : ℚ
  zoomDistance : ℚ
  lastPinchDistance : ℚ
  verticalDragAccumulator : ℚ
  isDragging : Bool
  lastMouseX : ℚ
  lastMouseY : ℚ
  anim : Option AnimState
deriving DecidableEq, Repr

/-- Initial ref values: `useRef(0.5)`, `useRef(0.35)`, `useRef(4.4)`,
`useRef(0)`, `useRef(0)`, `useRef(false)`, `useRef({x:0,y:0})`. -/
def camInit : CamState :=
  { pathProgress := 1/2, cameraHeight := 35/100, zoomDistance := 44/10
    lastPinchDistance := 0, verticalDragAccumulator := 0, isDragging := false
    lastMouseX := 0, lastMouseY := 0, anim := none }

/-- Input events handled by the controller.  `pinchMove` carries the
computed two-touch distance (`Math.hypot` of the touch deltas — a
nonnegative number; the bound below holds for any value).  `animTick` is
one `requestAnimationFrame` callback of the quick-jump animation, carrying
`Date.now() - startTime`. -/
inductive CamEvent where
  | wheel (deltaY : ℚ)
  | pinchMove (currentDistance : ℚ)
  | pinchEnd
  | pointerDown (x y : ℚ)
  | pointerMove (x y screenWidth : ℚ)
  | pointerUp
  | jump (view : String)
  | animTick (elapsed : ℚ)
deriving DecidableEq, Repr

def MIN_ZOOM : ℚ := 2
def MAX_ZOOM : ℚ := 8
def VERTICAL_DEAD_ZONE : ℚ := 15

/-- One event-handler step of `CameraController`, transcribed from the
wheel, touch, pointer and quick-jump handlers. -/
def camStep (s : CamState) (e : CamEvent) : CamState :=
  match e with
  | .wheel deltaY =>
      { s with
        zoomDistance := max MIN_ZOOM (min MAX_ZOOM (s.zoomDistance + deltaY * (2/1000))) }
  | .pinchMove currentDistance =>
      if s.lastPinchDistance > 0 then
        let delta := currentDistance - s.lastPinchDistance
        { s with
          zoomDistance := max MIN_ZOOM (min MAX_ZOOM (s.zoomDistance - delta * (1/100))),
          lastPinchDistance := currentDistance }
      else { s with lastPinchDistance := currentDistance }
  | .pinchEnd => { s with lastPinchDistance := 0 }
  | .pointerDown x y =>
      { s with
        isDragging := true, verticalDragAccumulator := 0,
        lastMouseX := x, lastMouseY := y }
  | .pointerMove x y screenWidth =>
      if s.isDragging then
        let deltaX := x - s.lastMouseX
        let deltaY := y - s.lastMouseY
        let dragSensitivity := 1 / (screenWidth * (57/100))
        let progress1 := jsWrap01 (s.pathProgress + deltaX * dragSensitivity)
        let acc := s.verticalDragAccumulator + |deltaY|
        if acc ≥ VERTICAL_DEAD_ZONE then
          { s with
            pathProgress := progress1,
            cameraHeight := max (-(1/2)) (min (7/2) (s.cameraHeight - deltaY * (71/10000))),
            verticalDragAccumulator := 0, lastMouseX := x, lastMouseY := y }
        else
          { s with
            pathProgress := progress1, verticalDragAccumulator := acc,
            lastMouseX := x, lastMouseY := y }
      else s
  | .pointerUp => { s with isDragging := false, verticalDragAccumulator := 0 }
  | .jump view =>
      let targetProgress : ℚ :=
        if view = "front" then 1/2
        else if view = "left" then 1/4
        else if view = "right" then 3/4
        else 1/2
      { s with
        anim := some
          { startProgress := s.pathProgress, startHeight := s.cameraHeight,
            targetProgress := targetProgress, targetHeight := 28/100 } }
  | .animTick elapsed =>
      match s.anim with
      | none => s
      | some a =>
        let animProgress := min (elapsed / 1000) 1
        let ease := 1 - (1 - animProgress) ^ 3
        { s with
          pathProgress := a.startProgress + (a.targetProgress - a.startProgress) * ease,
          cameraHeight := a.startHeight + (a.targetHeight - a.startHeight) * ease }

/-- Physical well-formedness of an event: an animation tick's elapsed time
(`Date.now() - startTime`) is nonnegative. -/
def CamEvent.wf : CamEvent → Prop
  | .animTick elapsed => 0 ≤ elapsed
  | _ => True

/-- The controller's declared state ranges, including those of any values
captured by a live animation. -/
def CamInv (s : CamState) : Prop :=
  (0 ≤ s.pathProgress ∧ s.pathProgress < 1) ∧
  (-(1/2) ≤ s.cameraHeight ∧ s.cameraHeight ≤ 7/2) ∧
  (2 ≤ s.zoomDistance ∧ s.zoomDistance ≤ 8) ∧
  (∀ a ∈ s.anim,
    (0 ≤ a.startProgress ∧ a.startProgress < 1) ∧
    (-(1/2) ≤ a.startHeight ∧ a.startHeight ≤ 7/2) ∧
    (0 ≤ a.targetProgress ∧ a.targetProgress < 1) ∧
    (-(1/2) ≤ a.targetHeight ∧ a.targetHeight ≤ 7/2))

theorem clamp_mem (lo hi x : ℚ) (h : lo ≤ hi) :
    lo ≤ max lo (min hi x) ∧ max lo (min hi x) ≤ hi :=
  ⟨le_max_left _ _, max_le h (min_le_left _ _)⟩

theorem ease_mem (e : ℚ) (he : 0 ≤ e) :
    0 ≤ 1 - (1 - min (e / 1000) 1) ^ 3 ∧ 1 - (1 - min (e / 1000) 1) ^ 3 ≤ 1 := by
  have hp0 : 0 ≤ min (e / 1000) 1 := le_min (by positivity) zero_le_one
  have hp1 : min (e / 1000) 1 ≤ 1 := min_le_right _ _
  have hq0 : 0 ≤ 1 - min (e / 1000) 1 := by linarith
  have hq1 : 1 - min (e / 1000) 1 ≤ 1 := by linarith
  have hc0 : 0 ≤ (1 - min (e / 1000) 1) ^ 3 := pow_nonneg hq0 3
  have hc1 : (1 - min (e / 1000) 1) ^ 3 ≤ 1 := pow_le_one₀ hq0 hq1
  constructor <;> linarith

theorem lerp_le_mem (a b t lo hi : ℚ) (ha : lo ≤ a) (ha' : a ≤ hi)
    (hb : lo ≤ b) (hb' : b ≤ hi) (ht : 0 ≤ t) (ht' : t ≤ 1) :
    lo ≤ a + (b - a) * t ∧ a + (b - a) * t ≤ hi := by
  constructor <;> nlinarith

theorem lerp_lt_mem (a b t : ℚ) (ha : 0 ≤ a) (ha' : a < 1)
    (hb : 0 ≤ b) (hb' : b < 1) (ht : 0 ≤ t) (ht' : t ≤ 1) :
    0 ≤ a + (b - a) * t ∧ a + (b - a) * t < 1 := by
  constructor
  · nlinarith [mul_nonneg ha (sub_nonneg.mpr ht'), mul_nonneg hb ht]
  · rcases lt_or_eq_of_le ht' with h | h
    · nlinarith [mul_pos (sub_pos.mpr ha') (sub_pos.mpr h),
        mul_nonneg (sub_pos.mpr hb').le ht]
    · rw [h]; nlinarith

/-- Each handler preserves the declared ranges. -/
theorem camStep_inv (s : CamState) (e : CamEvent) (hs : CamInv s) (he : e.wf) :
    CamInv (camStep s e) := by
  obtain ⟨⟨hp0, hp1⟩, ⟨hh0, hh1⟩, ⟨hz0, hz1⟩, hanim⟩ := hs
  cases e with
  | wheel deltaY =>
    exact ⟨⟨hp0, hp1⟩, ⟨hh0, hh1⟩,
      clamp_mem _ _ _ (by norm_num [MIN_ZOOM, MAX_ZOOM]), hanim⟩
  | pinchMove currentDistance =>
    by_cases h : s.lastPinchDistance > 0 <;> simp only [camStep, h, if_pos, if_neg,
      if_true, if_false, not_true, not_false_iff]
    · exact ⟨⟨hp0, hp1⟩, ⟨hh0, hh1⟩,
        clamp_mem _ _ _ (by norm_num [MIN_ZOOM, MAX_ZOOM]), hanim⟩
    · exact ⟨⟨hp0, hp1⟩, ⟨hh0, hh1⟩, ⟨hz0, hz1⟩, hanim⟩
  | pinchEnd => exact ⟨⟨hp0, hp1⟩, ⟨hh0, hh1⟩, ⟨hz0, hz1⟩, hanim⟩
  | pointerDown x y => exact ⟨⟨hp0, hp1⟩, ⟨hh0, hh1⟩, ⟨hz0, hz1⟩, hanim⟩
  | pointerMove x y screenWidth =>
    by_cases hd : s.isDragging
    · have hwrap := jsWrap01_mem
        (s.pathProgress + (x - s.lastMouseX) * (1 / (screenWidth * (57/100))))
      by_cases hacc : s.verticalDragAccumulator + |y - s.lastMouseY| ≥ VERTICAL_DEAD_ZONE <;>
        simp only [camStep, hd, hacc, if_true, if_false, if_pos, if_neg, not_true,
          not_false_iff]
      · exact ⟨hwrap, clamp_mem _ _ _ (by norm_num), ⟨hz0, hz1⟩, hanim⟩
      · exact ⟨hwrap, ⟨hh0, hh1⟩, ⟨hz0, hz1⟩, hanim⟩
    · simpa only [camStep, hd, if_false, Bool.false_eq_true] using
        ⟨⟨hp0, hp1⟩, ⟨hh0, hh1⟩, ⟨hz0, hz1⟩, hanim⟩
  | pointerUp => exact ⟨⟨hp0, hp1⟩, ⟨hh0, hh1⟩, ⟨hz0, hz1⟩, hanim⟩
  | jump view =>
    refine ⟨⟨hp0, hp1⟩, ⟨hh0, hh1⟩, ⟨hz0, hz1⟩, ?_⟩
    intro a ha
    simp only [camStep, Option.mem_def, Option.some.injEq] at ha
    subst ha
    refine ⟨⟨hp0, hp1⟩, ⟨hh0, hh1⟩, ?_, by norm_num⟩
    dsimp only
    split <;> norm_num
    split <;> norm_num
    split <;> norm_num
  | animTick elapsed =>
    cases hsa : s.anim with
    | none => simpa only [camStep, hsa] using ⟨⟨hp0, hp1⟩, ⟨hh0, hh1⟩, ⟨hz0, hz1⟩, hanim⟩
    | some a =>
      obtain ⟨⟨hsp0, hsp1⟩, ⟨hsh0, hsh1⟩, ⟨htp0, htp1⟩, ⟨hth0, hth1⟩⟩ :=
        hanim a (by simp [hsa])
      have hel : (0 : ℚ) ≤ elapsed := he
      obtain ⟨he0, he1⟩ := ease_mem elapsed hel
      have heq : camStep s (.animTick elapsed) =
          { s with
            pathProgress := a.startProgress + (a.targetProgress - a.startProgress)
              * (1 - (1 - min (elapsed / 1000) 1) ^ 3),
            cameraHeight := a.startHeight + (a.targetHeight - a.startHeight)
              * (1 - (1 - min (elapsed / 1000) 1) ^ 3) } := by
        simp only [camStep, hsa]
      rw [heq]
      refine ⟨?_, ?_, ⟨hz0, hz1⟩, ?_⟩
      · exact lerp_lt_mem a.startProgress a.targetProgress _ hsp0 hsp1 htp0 htp1 he0 he1
      · exact lerp_le_mem a.startHeight a.targetHeight _ _ _ hsh0 hsh1 hth0 hth1 he0 he1
      · intro b hb
        exact hanim b (by simpa [hsa] using hb)

/-- Run the controller from its initial ref values over an event sequence. -/
def camRun (evs : List CamEvent) : CamState := evs.foldl camStep camInit

/-- C8: under any sequence of drag, wheel, pinch and jump-to-side events
and animation frames, the controller's state never leaves its declared
ranges: `pathProgress ∈ [0, 1)` (circular wrap), `height ∈ [-0.5, 3.5]`,
`zoomRadius ∈ [2.0, 8.0]` — regardless of cumulative input magnitude or
direction.  (The per-frame camera `lerp` reads these refs but never writes
them.) -/
theorem camera_state_bounded (evs : List CamEvent) (hwf : ∀ e ∈ evs, e.wf) :
    (0 ≤ (camRun evs).pathProgress ∧ (camRun evs).pathProgress < 1) ∧
    (-(1/2) ≤ (camRun evs).cameraHeight ∧ (camRun evs).cameraHeight ≤ 7/2) ∧
    (2 ≤ (camRun evs).zoomDistance ∧ (camRun evs).zoomDistance ≤ 8) := by
  have hinit : CamInv camInit := by
    refine ⟨⟨by norm_num [camInit], by norm_num [camInit]⟩,
      ⟨by norm_num [camInit], by norm_num [camInit]⟩,
      ⟨by norm_num [camInit], by norm_num [camInit]⟩, ?_⟩
    intro a ha
    simp [camInit, Option.mem_def] at ha
  have h : ∀ (l : List CamEvent) (s : CamState), CamInv s → (∀ e ∈ l, e.wf) →
      CamInv (l.foldl camStep s) := by
    intro l
    induction l with
    | nil => intro s hs _; exact hs
    | cons e es ih =>
      intro s hs hwf'
      exact ih _ (camStep_inv s e hs (hwf' e (by simp)))
        (fun e' he' => hwf' e' (by simp [he']))
  obtain ⟨h1, h2, h3, _⟩ := h evs camInit hinit hwf
  exact ⟨h1, h2, h3⟩

/-- Witness for C8: a concrete event sequence with extreme inputs — a huge
wheel delta, a pinch, a full drag cycle, a jump to the left side and a
mid-flight animation frame. -/
theorem camera_state_bounded_witness :
    (∀ e ∈ [CamEvent.wheel 1000000, CamEvent.pinchMove 3, CamEvent.pinchMove 500,
        CamEvent.pointerDown 10 10, CamEvent.pointerMove (-4000) 900 1280,
        CamEvent.pointerUp, CamEvent.jump "left", CamEvent.animTick 500,
        CamEvent.animTick 1200], e.wf) ∧
    ((0 ≤ (camRun [CamEvent.wheel 1000000, CamEvent.pinchMove 3, CamEvent.pinchMove 500,
        CamEvent.pointerDown 10 10, CamEvent.pointerMove (-4000) 900 1280,
        CamEvent.pointerUp, CamEvent.jump "left", CamEvent.animTick 500,
        CamEvent.animTick 1200]).pathProgress ∧
      (camRun [CamEvent.wheel 1000000, CamEvent.pinchMove 3, CamEvent.pinchMove 500,
        CamEvent.pointerDown 10 10, CamEvent.pointerMove (-4000) 900 1280,
        CamEvent.pointerUp, CamEvent.jump "left", CamEvent.animTick 500,
        CamEvent.animTick 1200]).pathProgress < 1) ∧
     (-(1/2) ≤ (camRun [CamEvent.wheel 1000000, CamEvent.pinchMove 3, CamEvent.pinchMove 500,
        CamEvent.pointerDown 10 10, CamEvent.pointerMove (-4000) 900 1280,
        CamEvent.pointerUp, CamEvent.jump "left", CamEvent.animTick 500,
        CamEvent.animTick 1200]).cameraHeight ∧
      (camRun [CamEvent.wheel 1000000, CamEvent.pinchMove 3, CamEvent.pinchMove 500,
        CamEvent.pointerDown 10 10, CamEvent.pointerMove (-4000) 900 1280,
        CamEvent.pointerUp, CamEvent.jump "left", CamEvent.animTick 500,
        CamEvent.animTick 1200]).cameraHeight ≤ 7/2) ∧
     (2 ≤ (camRun [CamEvent.wheel 1000000, CamEvent.pinchMove 3, CamEvent.pinchMove 500,
        CamEvent.pointerDown 10 10, CamEvent.pointerMove (-4000) 900 1280,
        CamEvent.pointerUp, CamEvent.jump "left", CamEvent.animTick 500,
        CamEvent.animTick 1200]).zoomDistance ∧
      (camRun [CamEvent.wheel 1000000, CamEvent.pinchMove 3, CamEvent.pinchMove 500,
        CamEvent.pointerDown 10 10, CamEvent.pointerMove (-4000) 900 1280,
        CamEvent.pointerUp, CamEvent.jump "left", CamEvent.animTick 500,
        CamEvent.animTick 1200]).zoomDistance ≤ 8)) := by
  constructor
  · intro e he
    fin_cases he <;> simp [CamEvent.wf]
  · exact camera_state_bounded _ (by intro e he; fin_cases he <;> simp [CamEvent.wf])

/-! ## Rule-based natural-language interpreter (`interpretUserInput`)

The regex detectors are embedded as decidable word-boundary matchers over
the character list of the lowercased input.  JS `\w` is `[A-Za-z0-9_]`;
all pattern literals here consist of word characters, so a `\b` before a
literal holds iff the previous character is absent or not a word
character, and symmetrically after.  `.` (in `.*` / `.?`) matches any
character except a newline; the embedding lets it match any character,
which coincides on the single-line inputs at issue. -/

/-- JS `\w`. -/
def isWordChar (c : Char) : Bool := c.isAlphanum || c == '_'

/-- `String.prototype.toLowerCase` (character-wise). -/
def jsToLowerCase (s : String) : String := String.mk (s.data.map Char.toLower)

/-- Does `w` occur in `cs` starting at index `i`? -/
def charsMatchAt (cs : List Char) (i : ℕ) (w : List Char) : Bool :=
  ((cs.drop i).take w.length) == w

/-- `\b` immediately before index `i` (next char is a word char). -/
def boundaryLeft (cs : List Char) (i : ℕ) : Bool :=
  i == 0 || !(isWordChar (cs.getD (i - 1) ' '))

/-- `\b` immediately after index `j` (previous char is a word char). -/
def boundaryRight (cs : List Char) (j : ℕ) : Bool :=
  j == cs.length || !(isWordChar (cs.getD j ' '))

/-- `\bw\b.test(s)` for a literal word `w`. -/
def testWord (s : String) (w : String) : Bool :=
  let cs := s.data
  let ws := w.data
  (List.range (cs.length + 1)).any (fun i =>
    boundaryLeft cs i && charsMatchAt cs i ws && boundaryRight cs (i + ws.length))

/-- `\b(a₁|…).*(b₁|…)\b.test(s)`: some alternative of `starts` at a left
word boundary, then any gap, then some alternative of `ends` ending at a
right word boundary. -/
def testPairPattern (s : String) (starts ends : List String) : Bool :=
  let cs := s.data
  (List.range (cs.length + 1)).any (fun i =>
    starts.any (fun a =>
      boundaryLeft cs i && charsMatchAt cs i a.data &&
      (List.range (cs.length + 1)).any (fun j =>
        decide (i + a.data.length ≤ j) &&
        ends.any (fun b =>
          charsMatchAt cs j b.data && boundaryRight cs (j + b.data.length)))))

/-- `\bpre.?post\b.test(s)` (e.g. `no.?walls`, `high.?end`). -/
def testWordOptGap (s : String) (pre post : String) : Bool :=
  let cs := s.data
  let ps := pre.data
  let qs := post.data
  (List.range (cs.length + 1)).any (fun i =>
    boundaryLeft cs i && charsMatchAt cs i ps &&
    ((charsMatchAt cs (i + ps.length) qs && boundaryRight cs (i + ps.length + qs.length)) ||
     (decide (i + ps.length < cs.length) && charsMatchAt cs (i + ps.length + 1) qs &&
      boundaryRight cs (i + ps.length + 1 + qs.length))))

/-- The local `config` object of `interpretUserInput`, initialized to its
hardcoded defaults. -/
structure InterpConfig where
  width : ℚ
  depth : ℚ
  height : ℚ
  roofPitchActive : Bool
  roofPitchAngle : ℚ
  metalMaterial : String
  enclosureEnabled : Bool
  enclosureType : String
  glassType : String
  glassStyle : String
  selectedSide : Option String
  lightsOn : Bool
  lightShape : String
  verandaType : String
deriving DecidableEq, Repr

def interpDefaults : InterpConfig :=
  { width := 55/10, depth := 45/10, height := 3
    roofPitchActive := false, roofPitchAngle := 0
    metalMaterial := "anthracite"
    enclosureEnabled := true, enclosureType := "glass"
    glassType := "double", glassStyle := "withframe"
    selectedSide := some "front"
    lightsOn := false, lightShape := "circle"
    verandaType := "wall-mounted" }

/-- STEP 2 of `interpretUserInput` (the "bulletproof" glass-type chain):
the detected glass type, six/five/four/triple/double checked in that
order, each via `\b(word|digit).*(fold|panel|glass|pane)\b` or the
split-word conjunction. -/
def glassTypeDetect (inputLower : String) : Option String :=
  if testPairPattern inputLower ["six", "6"] ["fold", "panel", "glass", "pane"] ||
     (testWord inputLower "six" && testWord inputLower "glass") then some "sixfold"
  else if testPairPattern inputLower ["five", "5"] ["fold", "panel", "glass", "pane"] ||
     (testWord inputLower "five" && testWord inputLower "glass") then some "fivefold"
  else if testPairPattern inputLower ["four", "4"] ["fold", "panel", "glass", "pane"] ||
     (testWord inputLower "four" && testWord inputLower "glass") then some "fourfold"
  else if testPairPattern inputLower ["triple", "three", "3"] ["fold", "panel", "glass", "pane"] ||
     ((testWord inputLower "triple" || testWord inputLower "three") &&
       testWord inputLower "glass") then some "triple"
  else if testPairPattern inputLower ["double", "two", "2"] ["fold", "panel", "glass", "pane"] ||
     ((testWord inputLower "double" || testWord inputLower "two") &&
       testWord inputLower "glass") then some "double"
  else none

/-- The value of the local `config` after the steps of `interpretUserInput`
that write `glassType` / `enclosureEnabled` / `selectedSide` (STEP 2 glass
detection, STEP 7 enclosure detection and the sliding rule, STEP 8
luxury/budget).  Steps 1, 3–6 and 9–11 (frame color, dimensions, glass
style, lighting mood, roof keywords, history adjustments) write only the
other fields and are not modeled.  `.2` of the result is the local
`glassDetected` flag. -/
def interpretUserInputConfig (input : String) (_history : List String) :
    InterpConfig × Bool :=
  let inputLower := jsToLowerCase input
  let config := interpDefaults
  -- STEP 2: glass type detection
  let (config, glassDetected) :=
    match glassTypeDetect inputLower with
    | some g =>
        ({ config with glassType := g, enclosureEnabled := true
                       selectedSide := some "front" }, true)
    | none => (config, false)
  -- STEP 7: enclosure detection
  let config :=
    if testWord inputLower "open" || testWord inputLower "airy" ||
       testWordOptGap inputLower "no" "walls" ||
       testWordOptGap inputLower "no" "enclosure" then
      { config with enclosureEnabled := false, selectedSide := none }
    else if testWord inputLower "glass" || testWord inputLower "window" ||
       testWord inputLower "transparent" || testWord inputLower "enclosed" then
      { config with enclosureEnabled := true, enclosureType := "glass"
                    selectedSide := if config.selectedSide = none
                      then some "front" else config.selectedSide }
    else config
  -- STEP 7 (cont.): sliding implies fourfold, only without an explicit family
  let config :=
    if !glassDetected && (testWord inputLower "sliding" || testWord inputLower "flexible" ||
        testWord inputLower "movable" || testWord inputLower "retractable") then
      { config with glassType := "fourfold", enclosureEnabled := true
                    selectedSide := some "front" }
    else config
  -- STEP 8: luxury/budget, only without an explicit family
  let config :=
    if !glassDetected then
      if testWord inputLower "luxury" || testWord inputLower "premium" ||
         testWordOptGap inputLower "high" "end" || testWord inputLower "expensive" ||
         testWord inputLower "best" || testWord inputLower "finest" ||
         testWordOptGap inputLower "top" "quality" then
        let config := { config with glassType := "sixfold", enclosureEnabled := true
                                    selectedSide := some "front", lightsOn := true }
        if config.width < 7 then { config with width := 75/10 } else config
      else if testWord inputLower "budget" || testWord inputLower "cheap" ||
         testWord inputLower "affordable" || testWord inputLower "economical" ||
         testWord inputLower "basic" then
        { config with glassType := "double" }
      else config
    else config
  (config, glassDetected)

/-- `interpretUserInput(input, history)`: the function builds its local
`config` through the detector battery, but its `GENERATE RESPONSE` section
is empty and the function body ends without any `return` statement, so the
call evaluates to `undefined` (modeled as `none`). -/
def interpretUserInput (input : String) (history : List String) :
    Option InterpConfig :=
  let _config := interpretUserInputConfig input history
  none

/-- C7: on the input `"I want a six glass veranda"` (empty history) the
detector battery does set the local config to
`glassType = 'sixfold'`, `enclosureEnabled = true`,
`selectedSide = 'front'`, but `interpretUserInput` itself ends without a
`return` statement, so the call yields `undefined` rather than that
configuration. -/
theorem interpretUserInput_six_glass :
    interpretUserInput "I want a six glass veranda" [] = none ∧
    (interpretUserInputConfig "I want a six glass veranda" []).1.glassType = "sixfold" ∧
    (interpretUserInputConfig "I want a six glass veranda" []).1.enclosureEnabled = true ∧
    (interpretUserInputConfig "I want a six glass veranda" []).1.selectedSide
      = some "front" :=
  ⟨rfl, by decide, by decide, by decide⟩

/-! ## Scene resolution pass (`VerandaModel`'s main `useEffect`)

Scene nodes are records of the mutable fields the pass writes: visibility,
material (modeled by kind and constructor parameters; in-place parameter
tweaks on the floor's own material are not modeled), scale/rotation/
position components, and the `userData.originalY/originalZ` stash.  The
pass's `scene.traverse` sections mutate each mesh independently, so the
whole pass is the per-node composition of the sections (STEP 3, sections
A–L of STEP 4, STEP 5, STEP 6), mapped over the node list.  The part-name
constants in the source are all lowercase already, so the
`part.toLowerCase()` calls on them are identities and are omitted; the
node's own `child.name.toLowerCase()` is kept (`jsToLowerCase`). -/

/-- A material reference, by kind and constructor parameters:
an authored GLB material (with its name, checked by STEP 3), the
`initialBlackMaterial` clone, the clear / tinted glass
`MeshPhysicalMaterial`s (the two branches of `getGlassMaterial` differ in
transmission, hence distinct constructors), the `lightMaterial` clone
(with its derived color/emissive/intensity/opacity), and the
`frameMaterial` clone. -/
inductive Material where
  | named (nm : String) : Material
  | black006 : Material
  | glassClear : Material
  | glassTinted (color : String) (opacity : ℚ) : Material
  | light (color emissive : String) (emissiveIntensity opacity : ℚ) : Material
  | frame (color : String) : Material
deriving DecidableEq, Repr

/-- A scene node's mutable state (plus its immutable name / mesh flag). -/
structure Node where
  name : String
  isMesh : Bool
  visible : Bool
  material : Option Material
  scaleX : ℚ
  scaleY : ℚ
  scaleZ : ℚ
  rotX : ℚ
  posY : ℚ
  posZ : ℚ
  userDataOriginalY : Option ℚ
  userDataOriginalZ : Option ℚ
deriving DecidableEq, Repr

/-- One `sideEnclosureTypes` entry (`{material, glassType}`), with optional
fields as reached by the `?.` chains. -/
structure SideEntry where
  material : Option String
  glassType : Option String
deriving DecidableEq, Repr

structure Sides where
  front : SideEntry
  left : SideEntry
  right : SideEntry
deriving DecidableEq, Repr

/-- The props of `VerandaModel` read by the resolution `useEffect`
(`selectedSide` and `enclosureType` are in its dependency array but unused
in its body). -/
structure Config where
  roofPitchActive : Bool
  roofPitchAngle : ℚ
  roofAwningPosition : String
  metalMaterial : String
  lightsOn : Bool
  lightShape : String
  timeOfDay : String
  lightColor : String
  glassType : String
  glassStyle : String
  enclosureEnabled : Bool
  width : ℚ
  depth : ℚ
  height : ℚ
  sideEnclosureTypes : Sides
  verandaType : String
  tintedGlassEnabled : Bool
  glassColor : String
deriving DecidableEq, Repr

/-- JS `a || b` on an optionally-present string (`undefined` and `''` are
falsy). -/
def jsOr (o : Option String) (d : String) : String :=
  match o with
  | none => d
  | some s => if s = "" then d else s

/-- `String.prototype.replace(pat, '')`: remove the first (leftmost)
occurrence of `pat`, if any. -/
def replaceFirst (s pat : String) : String :=
  let cs := s.data
  let ps := pat.data
  match (List.range (cs.length + 1)).find? (fun i => charsMatchAt cs i ps) with
  | some i => String.mk (cs.take i ++ cs.drop (i + ps.length))
  | none => s

/-- `String.prototype.endsWith`. -/
def jsEndsWith (s suffix : String) : Bool :=
  decide (suffix.data.length ≤ s.data.length) &&
    ((s.data.drop (s.data.length - suffix.data.length)) == suffix.data)

/-- `String.prototype.includes`. -/
def jsIncludes (s pat : String) : Bool :=
  (List.range (s.data.length + 1)).any (fun i => charsMatchAt s.data i pat.data)

/-- `String.prototype.slice(0, -3)`. -/
def sliceDropLast3 (s : String) : String := String.mk (s.data.take (s.data.length - 3))

/-- String-keyed association lookup (JS object property access). -/
def slookup {α : Type} (l : List (String × α)) (k : String) : Option α :=
  match l.find? (fun p => p.1 == k) with
  | some p => some p.2
  | none => none

/-- One `glassConfigs` family entry (the `leftGlasses` / `rightGlasses`
fields present on some entries are never read by the resolution pass and
are omitted; only `pillarScale.x` is read). -/
structure GlassConfig where
  borders : List String
  holders : List String
  glasses : List String
  sliders : List String
  singleGlasses : Option (List String)
  grid : String
  pillarScaleX : ℚ
deriving DecidableEq, Repr

def doubleConfig : GlassConfig :=
  { borders := ["borderglassleft", "borderglassright"]
    holders := ["twoglassholder", "twoglassholderbottom"]
    glasses := ["oneglassleft", "oneglassright"]
    sliders := ["doubleglasssliderleft", "doubleglasssliderright"]
    singleGlasses := some ["oneglassleft", "oneglassright"]
    grid := "griddouble"
    pillarScaleX := 1 }

def tripleConfig : GlassConfig :=
  { borders := ["borderglasslefttriple", "borderglassmidtriple", "borderglassrighttriple"]
    holders := ["tripleglassholder", "tripleglassholderbottom"]
    glasses := ["tripleleftglass", "triplemidglass", "triplerightglass"]
    sliders := ["tripleglasssliderleft", "tripleglassslidermid", "tripleglasssliderright"]
    singleGlasses := none
    grid := "gridtriple"
    pillarScaleX := 14/10 }

def fourfoldConfig : GlassConfig :=
  { borders := ["borderglassfourleft", "borderglassfoursecond", "borderglassfourthird",
      "borderglassfourright"]
    holders := ["fourglassholder", "fourglassholderbottom"]
    glasses := ["fourfirstglass", "foursecondglass", "fourthirdglass", "fourlastglass"]
    sliders := ["glasssliderfourleft", "glasssliderfoursecond", "glasssliderfourthird",
      "glasssliderfourright"]
    singleGlasses := none
    grid := "gridfourfold"
    pillarScaleX := 16/10 }

def fivefoldConfig : GlassConfig :=
  { borders := ["borderglassfiveleft", "borderglassfivesecond", "borderglassfivethird",
      "borderglassfivefourth", "borderglassfiveright"]
    holders := ["fiveglassholder", "fiveglassholderbottom"]
    glasses := ["fivefirstglass", "fivesecondglass", "fivethirdglass", "fivefourthglass",
      "fivelastglass"]
    sliders := ["glasssliderfiveleft", "glasssliderfivesecond", "glasssliderfivethird",
      "glasssliderfivefour", "glasssliderfiveright"]
    singleGlasses := none
    grid := "gridfivefold"
    pillarScaleX := 185/100 }

def sixfoldConfig : GlassConfig :=
  { borders := ["borderglasssixleft", "borderglasssixsecond", "borderglasssixthird",
      "borderglasssixfourth", "borderglasssixfifth", "borderglasssixright"]
    holders := ["sixglassholder", "sixglassholderbottom"]
    glasses := ["sixfirstglass", "sixsecondglass", "sixthirdglass", "sixfourthglass",
      "sixfifthglass", "sixlastglass"]
    sliders := ["glasslidersixleft", "glassslidersixsecond", "glasslidersixthird",
      "glasslidersixfour", "glasslidersixfifth", "glasslidersixright"]
    singleGlasses := none
    grid := "gridsixfold"
    pillarScaleX := 22/10 }

/-- `glassConfigs`, in JS insertion order. -/
def glassConfigsList : List (String × GlassConfig) :=
  [("double", doubleConfig), ("triple", tripleConfig), ("fourfold", fourfoldConfig),
   ("fivefold", fivefoldConfig), ("sixfold", sixfoldConfig)]

/-- `glassConfigs[key]`. -/
def glassConfigsLookup (k : String) : Option GlassConfig :=
  match slookup glassConfigsList k with
  | some c => some c
  | none => none

/-- `const currentGlassConfig = glassConfigs[glassType] || glassConfigs.double;` -/
def currentGlassConfig (cfg : Config) : GlassConfig :=
  (glassConfigsLookup cfg.glassType).getD doubleConfig

/-- `roofXScales` and `const currentRoofScaleX = roofXScales[glassType] || 1.0;`
(every table value is truthy, so `||` only handles the lookup miss). -/
def roofXScales : List (String × ℚ) :=
  [("double", 1), ("triple", 1005/1000), ("fourfold", 101/100), ("fivefold", 102/100),
   ("sixfold", 103/100)]

def currentRoofScaleX (cfg : Config) : ℚ := (slookup roofXScales cfg.glassType).getD 1

/-- `visibleAtStart` (one entry, `'normroofholder '`, carries a stray
trailing space in the source). -/
def visibleAtStart : List String :=
  ["normroofholder", "normroofglass", "normroof", "floor", "oneglassright", "oneglassleft",
   "twoglassholder", "twoglassholderbottom", "normroofholder ", "leftpillar", "rightpillar",
   "borderglassleft", "borderglassright", "lightsround", "doubleglasssliderleft",
   "doubleglasssliderright"]

/-- `const alwaysVisibleStructural = [];` -/
def alwaysVisibleStructural : List String := []

/-- `getFrameColor()`. -/
def getFrameColor (metalMaterial : String) : String :=
  if metalMaterial = "anthracite" then "#28282d"
  else if metalMaterial = "black" then "#000000"
  else if metalMaterial = "grey" then "#808080"
  else if metalMaterial = "white" then "#f5f5f5"
  else "#28282d"

/-- `GLASS_TINT_COLORS` (color and opacity; labels are UI-only). -/
def GLASS_TINT_COLORS : List (String × (String × ℚ)) :=
  [("clear", ("#ffffff", 3/10)), ("lightgrey", ("#b0b0b0", 4/10)),
   ("smokegrey", ("#707070", 1/2)), ("bronze", ("#cd7f32", 45/100)),
   ("green", ("#90c090", 4/10)), ("blue", ("#a0c0e0", 4/10))]

/-- `getGlassMaterial()`: the clear branch when tinting is off or the key
is exactly `'clear'`; otherwise the tinted branch built from the tint
config, which falls back to the clear entry on an unknown key. -/
def getGlassMaterial (cfg : Config) : Material :=
  let tintConfig := (slookup GLASS_TINT_COLORS cfg.glassColor).getD ("#ffffff", 3/10)
  if !cfg.tintedGlassEnabled || cfg.glassColor == "clear" then Material.glassClear
  else Material.glassTinted tintConfig.1 tintConfig.2

/-- `lightMaterial`, with its derived constructor arguments. -/
def lightMaterial (cfg : Config) : Material :=
  let lightEmissiveColor := if cfg.timeOfDay == "night" then cfg.lightColor else "#000000"
  let lightIntensity : ℚ := if cfg.timeOfDay == "night" then 3/2 else 0
  Material.light
    (if cfg.lightsOn then
       (if cfg.metalMaterial == "anthracite" then "#f5f5f5" else "#28282d")
     else "#333333")
    (if cfg.lightsOn then lightEmissiveColor else "#000000")
    (if cfg.lightsOn then lightIntensity else 0)
    (if cfg.lightsOn then 1 else 3/10)

/-- `frameMaterial`. -/
def frameMaterial (cfg : Config) : Material := Material.frame (getFrameColor cfg.metalMaterial)

/-- `Math.PI` as the IEEE-754 double the engine computes with. -/
def piRat : ℚ := 884279719003555 / 281474976710656

/-- `THREE.MathUtils.degToRad` (float rounding not modeled). -/
def degToRad (d : ℚ) : ℚ := d * (piRat / 180)

/-- The object list pushed for every non-`double` family in `allGlassObjects`:
`[...borders, ...holders, ...glasses, ...sliders, grid]`. -/
def gcAllObjects (c : GlassConfig) : List String :=
  c.borders ++ c.holders ++ c.glasses ++ c.sliders ++ [c.grid]

/-- `allGlassObjects` (families other than `double`). -/
def allGlassObjects : List String :=
  (glassConfigsList.filter (fun p => p.1 ≠ "double")).foldr
    (fun p acc => gcAllObjects p.2 ++ acc) []

/-- Section H's per-family `allParts`: `[...borders, ...holders, ...glasses,
...sliders, grid]` plus `singleGlasses` when present. -/
def sectionHAllParts (c : GlassConfig) : List String :=
  gcAllObjects c ++ c.singleGlasses.getD []

/-- STEP 3: rebind any mesh whose material is named `Material.006` to a
clone of `initialBlackMaterial`. -/
def step3Mat (n : Node) : Node :=
  if n.isMesh then
    match n.material with
    | some (.named "Material.006") => { n with material := some .black006 }
    | _ => n
  else n

/-- Section A: wall-mounted vs freestanding back elements and flat-roof
mesh variant.  (The floor-material parameter tweaks are not modeled.) -/
def sectionA (cfg : Config) (n : Node) : Node :=
  let nl := jsToLowerCase n.name
  if cfg.verandaType == "wall-mounted" then
    let n := if ["leftbackpiller", "rightbackpiller", "righbackpiller", "backglass",
        "backholder"].contains nl then { n with visible := false } else n
    let n := if nl == "normroof" then { n with visible := false } else n
    if nl == "pitchnormroof" then { n with visible := true } else n
  else if cfg.verandaType == "freestanding" then
    let n := if ["leftbackpiller", "rightbackpiller", "righbackpiller", "backglass",
        "backholder"].contains nl then { n with visible := true } else n
    let n := if nl == "normroof" then { n with visible := true } else n
    if nl == "pitchnormroof" then { n with visible := false } else n
  else n

/-- Section B: front corner pillar X scale from the current family. -/
def sectionB (cfg : Config) (n : Node) : Node :=
  let nl := jsToLowerCase n.name
  if nl == "leftpillar" || nl == "rightpillar" then
    { n with scaleX := (currentGlassConfig cfg).pillarScaleX }
  else n

/-- Section C: front pillars always visible. -/
def sectionC (_cfg : Config) (n : Node) : Node :=
  let nl := jsToLowerCase n.name
  if ["leftpiller", "rightpiller"].contains nl then { n with visible := true } else n

/-- Section D: initial visibility for every mesh — non-`double` glass
objects hidden, freestanding back elements forced visible, everything else
per `visibleAtStart`. -/
def sectionD (cfg : Config) (n : Node) : Node :=
  let nl := jsToLowerCase n.name
  if allGlassObjects.any (fun obj => nl == obj) then
    { n with visible := false }
  else if cfg.verandaType == "freestanding" &&
      ["backglass", "backholder", "leftbackpiller", "rightbackpiller",
       "righbackpiller"].contains nl then
    { n with visible := true }
  else
    { n with visible := visibleAtStart.any (fun obj => nl == obj) }

/-- Section E: `alwaysVisibleStructural` (empty in the source). -/
def sectionE (_cfg : Config) (n : Node) : Node :=
  let nl := jsToLowerCase n.name
  if alwaysVisibleStructural.contains nl then { n with visible := true } else n

def leftMetalParts : List String := ["metalleft", "metalholderleft"]
def leftWoodParts : List String := ["woodleft", "woodholderleft"]
def leftWindowParts : List String :=
  ["windowwallleft", "windowleftone", "windowlefttwo", "windowleftholder2",
   "windowleftholder"]
def rightMetalParts : List String := ["metalright", "metalholderright"]
def rightWoodParts : List String := ["woodright", "woodholderright"]
def rightWindowParts : List String :=
  ["windowwallright", "windowrightone", "windowrighttwo", "windowrightholder2",
   "windowrightholder"]

/-- Section F: left-side non-glass enclosure parts. -/
def sectionF (cfg : Config) (n : Node) : Node :=
  let nl := jsToLowerCase n.name
  if cfg.enclosureEnabled then
    let leftEnclosureType := jsOr cfg.sideEnclosureTypes.left.material "glass"
    let n := if (leftMetalParts ++ leftWoodParts ++ leftWindowParts).contains nl then
        { n with visible := false } else n
    if leftEnclosureType == "metal" then
      (if leftMetalParts.contains nl then { n with visible := true } else n)
    else if leftEnclosureType == "wood" then
      (if leftWoodParts.contains nl then { n with visible := true } else n)
    else if leftEnclosureType == "window" then
      (if leftWindowParts.contains nl then { n with visible := true } else n)
    else n
  else n

/-- Section G: right-side non-glass enclosure parts. -/
def sectionG (cfg : Config) (n : Node) : Node :=
  let nl := jsToLowerCase n.name
  if cfg.enclosureEnabled then
    let rightEnclosureType := jsOr cfg.sideEnclosureTypes.right.material "glass"
    let n := if (rightMetalParts ++ rightWoodParts ++ rightWindowParts).contains nl then
        { n with visible := false } else n
    if rightEnclosureType == "metal" then
      (if rightMetalParts.contains nl then { n with visible := true } else n)
    else if rightEnclosureType == "wood" then
      (if rightWoodParts.contains nl then { n with visible := true } else n)
    else if rightEnclosureType == "window" then
      (if rightWindowParts.contains nl then { n with visible := true } else n)
    else n
  else n

/-- Section H: glass configuration, strict suffix logic.  A `001`/`002`
suffix (on the raw name) marks a left/right instance; the suffix is
stripped from the lowercased name (`String.replace`, first occurrence) to
get the base identity; any node whose base name belongs to any family's
part table is hidden by default and shown only if its own side's material
is `'glass'` and its base name is in the side's selected family's table,
with border/grid parts further gated by `glassStyle`.  With the enclosure
disabled, only `double`'s holders and glasses are forced visible here. -/
def sectionH (cfg : Config) (n : Node) : Node :=
  let nl := jsToLowerCase n.name
  if cfg.enclosureEnabled then
    let frontGlassType := jsOr cfg.sideEnclosureTypes.front.glassType cfg.glassType
    let leftGlassType := jsOr cfg.sideEnclosureTypes.left.glassType cfg.glassType
    let rightGlassType := jsOr cfg.sideEnclosureTypes.right.glassType cfg.glassType
    let frontConfig := glassConfigsLookup frontGlassType
    let leftConfig := glassConfigsLookup leftGlassType
    let rightConfig := glassConfigsLookup rightGlassType
    let frontMaterialKey := jsOr cfg.sideEnclosureTypes.front.material "glass"
    let leftMaterialKey := jsOr cfg.sideEnclosureTypes.left.material "glass"
    let rightMaterialKey := jsOr cfg.sideEnclosureTypes.right.material "glass"
    let isLeftObject := jsEndsWith n.name "001"
    let isRightObject := jsEndsWith n.name "002"
    let isFrontObject := !isLeftObject && !isRightObject
    let baseName0 := nl
    let baseName1 := if isLeftObject then replaceFirst nl "001" else baseName0
    let baseName := if isRightObject then replaceFirst nl "002" else baseName1
    let isAnyGlassObject := glassConfigsList.any
      (fun p => (sectionHAllParts p.2).any (fun part => baseName == part))
    if isAnyGlassObject then
      let n := { n with visible := false }
      let targetConfig := if isFrontObject then frontConfig
        else if isLeftObject then leftConfig else rightConfig
      let targetMaterialKey := if isFrontObject then frontMaterialKey
        else if isLeftObject then leftMaterialKey else rightMaterialKey
      -- `if (targetConfig && targetMaterial === 'glass')`: a truthiness test
      -- on the lookup result; the `getD` default below is never read (guarded
      -- by `isSome`).
      if targetConfig.isSome && targetMaterialKey == "glass" then
        let tc := targetConfig.getD doubleConfig
        let isHolder := tc.holders.any (fun h => baseName == h)
        let isPanel := tc.glasses.any (fun g => baseName == g)
        let isBorder := tc.borders.any (fun b => baseName == b)
        let isSlider := tc.sliders.any (fun sl => baseName == sl)
        let isSingle := (tc.singleGlasses.getD []).any (fun sg => baseName == sg)
        let isGrid := baseName == tc.grid
        if isHolder || isPanel || isBorder || isSlider || isSingle || isGrid then
          let n := if isHolder || isSlider then { n with visible := true } else n
          let n := if isPanel || isSingle then
              { n with visible := true,
                       material := n.material.map (fun _ => getGlassMaterial cfg) }
            else n
          let n := if isBorder then
              { n with visible := (cfg.glassStyle == "withframe" ||
                  cfg.glassStyle == "grid") }
            else n
          if isGrid then { n with visible := (cfg.glassStyle == "grid") } else n
        else n
      else n
    else n
  else
    if (doubleConfig.holders ++ doubleConfig.glasses).contains nl then
      { n with visible := true }
    else n

/-- Section I: roof pitch.  When active: hide the flat-roof meshes and
flat-roof lights, show the pitch meshes, and drive the pitch glass/side/
shade transforms from the angle.  When inactive: hide the pitch meshes,
show `normroofglass`, and pick `pitchnormroof` / `normroof` per veranda
type.  The transform writes happen only in the active branch. -/
def sectionI (cfg : Config) (n : Node) : Node :=
  let nl := jsToLowerCase n.name
  if cfg.roofPitchActive then
    let n := if ["normroof", "normroofglass", "pitchnormroof"].contains nl then
        { n with visible := false } else n
    let n := if ["lightsround", "lightsrect", "lightssquare"].contains nl then
        { n with visible := false } else n
    let n := if ["roofpitchbase", "roofpitchside", "roofpitchglass",
        "roofpitchshade"].contains nl then { n with visible := true } else n
    let angleRad := -(degToRad cfg.roofPitchAngle)
    let n := if nl == "roofpitchglass" then
        { n with scaleY := 1 + (cfg.roofPitchAngle / 15) * (5/2), visible := true } else n
    let n := if nl == "roofpitchside" then
        { n with rotX := angleRad, scaleZ := 1 + (cfg.roofPitchAngle / 15) * (1/10) } else n
    if nl == "roofpitchshade" then { n with rotX := angleRad } else n
  else
    let n := if ["roofpitchbase", "roofpitchside", "roofpitchglass",
        "roofpitchshade"].contains nl then { n with visible := false } else n
    let n := if nl == "normroofglass" then { n with visible := true } else n
    if cfg.verandaType == "wall-mounted" then
      let n := if nl == "pitchnormroof" then { n with visible := true } else n
      if nl == "normroof" then { n with visible := false } else n
    else if cfg.verandaType == "freestanding" then
      let n := if nl == "normroof" then { n with visible := true } else n
      if nl == "pitchnormroof" then { n with visible := false } else n
    else n

/-- Section J: awning.  With position `'top'`, exactly one pair is shown
per roof regime; the original local position is stashed in
`userData.originalY/originalZ` on first touch and the new position is
original + fixed offsets (+ angle lift on the pitched pair).  With any
other position all four awning meshes are hidden. -/
def sectionJ (cfg : Config) (n : Node) : Node :=
  let nl := jsToLowerCase n.name
  let angleRad := -(degToRad cfg.roofPitchAngle)
  if cfg.roofAwningPosition == "top" then
    if cfg.roofPitchActive then
      let n := if ["roofpitchawn", "roofpitchawnfabric"].contains nl then
          let n := { n with visible := true, rotX := angleRad, scaleZ := 1 }
          let origY := (n.userDataOriginalY).getD n.posY
          let origZ := (n.userDataOriginalZ).getD n.posZ
          let upwardMovement := cfg.roofPitchAngle * (1/100)
          { n with userDataOriginalY := some origY, userDataOriginalZ := some origZ,
                   posY := origY + (2/100) + upwardMovement,
                   posZ := origZ + (-(2/100)) }
        else n
      if ["normawn", "normawnfabric"].contains nl then { n with visible := false } else n
    else
      let n := if ["normawn", "normawnfabric"].contains nl then
          let n := { n with visible := true, scaleZ := 1 }
          let origY := (n.userDataOriginalY).getD n.posY
          let origZ := (n.userDataOriginalZ).getD n.posZ
          { n with userDataOriginalY := some origY, userDataOriginalZ := some origZ,
                   posY := origY, posZ := origZ }
        else n
      if ["roofpitchawn", "roofpitchawnfabric"].contains nl then
        { n with visible := false } else n
  else
    if ["normawn", "normawnfabric", "roofpitchawn", "roofpitchawnfabric"].contains nl then
      { n with visible := false }
    else n

def normalLights : List String := ["lightsround", "lightsrect", "lightssquare"]

/-- Section K: flat-roof lights — all hidden first, then exactly the mesh
matching `lightShape` shown (with the light material) when `lightsOn` and
the pitched roof is inactive; then the roof glass meshes get the resolved
glass material. -/
def sectionK (cfg : Config) (n : Node) : Node :=
  let nl := jsToLowerCase n.name
  let n := if normalLights.any (fun l => nl == l) then { n with visible := false } else n
  let n :=
    if cfg.lightsOn && !cfg.roofPitchActive then
      if cfg.lightShape == "circle" && nl == "lightsround" then
        { n with visible := true, material := n.material.map (fun _ => lightMaterial cfg) }
      else if cfg.lightShape == "rectangle" && nl == "lightsrect" then
        { n with visible := true, material := n.material.map (fun _ => lightMaterial cfg) }
      else if cfg.lightShape == "square" && nl == "lightssquare" then
        { n with visible := true, material := n.material.map (fun _ => lightMaterial cfg) }
      else n
    else n
  if ["normroofglass", "roofpitchglass"].contains nl then
    { n with material := n.material.map (fun _ => getGlassMaterial cfg) }
  else n

/-- `excludedFromFrameColor` (the source array contains one elision — a
hole — between `'roofpitchlightssquare'` and `'roofpitchglass'`, which
`Array.prototype.some` skips). -/
def excludedFromFrameColor : List String :=
  ["normroofglass", "backglass", "woodleft", "woodright",
   "lightsround", "lightsrect", "lightssquare",
   "roofpitchlightround", "roofpitchlightsrect", "roofpitchlightssquare",
   "roofpitchglass",
   "oneglassleft", "oneglassright",
   "tripleleftglass", "triplemidglass", "triplerightglass",
   "fourfirstglass", "foursecondglass", "fourthirdglass", "fourlastglass",
   "fivefirstglass", "fivesecondglass", "fivethirdglass", "fivefourthglass", "fivelastglass",
   "sixfirstglass", "sixsecondglass", "sixthirdglass", "sixfourthglass", "sixfifthglass",
   "sixlastglass",
   "doubleglasssliderleft", "doubleglasssliderright",
   "tripleglasssliderleft", "tripleglassslidermid", "tripleglasssliderright",
   "glasssliderfourleft", "glasssliderfoursecond", "glasssliderfourthird",
   "glasssliderfourright",
   "glasssliderfiveleft", "glasssliderfivesecond", "glasssliderfivethird",
   "glasssliderfivefour", "glasssliderfiveright",
   "glassslidersixleft", "glassslidersixsecond", "glassslidersixthird", "glassslidersixfour",
   "glassslidersixfifth", "glassslidersixright",
   "leftglass", "rightglass",
   "windowleftone", "windowlefttwo",
   "windowrightone", "windowrighttwo",
   "normawnfabric", "roofpitchawnfabric", "floor"]

def backElements : List String :=
  ["leftbackpiller", "rightbackpiller", "righbackpiller", "backholder"]

/-- Section L: frame color.  Visible back elements always get the frame
material; any other visible mesh gets it unless excluded by name or by the
glass-name heuristic (`contains 'glass'` without `'holder'`/`'border'`). -/
def sectionL (cfg : Config) (n : Node) : Node :=
  let nl := jsToLowerCase n.name
  if backElements.contains nl && n.visible && n.material.isSome then
    { n with material := some (frameMaterial cfg) }
  else
    let isExcluded := excludedFromFrameColor.any (fun e => nl == e)
    let isGlassObject := jsIncludes nl "glass" && !(jsIncludes nl "holder") &&
      !(jsIncludes nl "border")
    let shouldGetFrameColor := !isExcluded && !isGlassObject
    if n.visible && shouldGetFrameColor && n.material.isSome then
      { n with material := some (frameMaterial cfg) }
    else n

/-- The glass-holder meshes that STEP 5 rescales along depth
(`depthScalingHolders`). -/
def depthScalingHolders : List String :=
  ["twoglassholder", "twoglassholderbottom",
   "tripleglassholder", "tripleglassholderbottom",
   "fourglassholder", "fourglassholderbottom",
   "fiveglassholder", "fiveglassholderbottom",
   "sixglassholder", "sixglassholderbottom"]

/-- STEP 5: counter-scale the glass holders along depth (suffixes stripped
with `slice(0, -3)`, each `if` testing the lowercased name). -/
def step5HolderScale (cfg : Config) (n : Node) : Node :=
  if n.isMesh then
    let nl := jsToLowerCase n.name
    let baseName0 := nl
    let baseName1 := if jsEndsWith nl "001" then sliceDropLast3 nl else baseName0
    let baseName := if jsEndsWith nl "002" then sliceDropLast3 nl else baseName1
    if depthScalingHolders.contains baseName then
      { n with scaleZ := cfg.depth / 3 }
    else n
  else n

/-- STEP 6: per-family horizontal roof stretch (`scale.set` writes all
three components). -/
def step6RoofScale (cfg : Config) (n : Node) : Node :=
  if n.isMesh then
    let nl := jsToLowerCase n.name
    if nl == "normroof" then
      { n with scaleX := 1, scaleY := 1, scaleZ := currentRoofScaleX cfg }
    else if ["normroofglass", "normroofholder"].contains nl then
      { n with scaleX := currentRoofScaleX cfg, scaleY := 1, scaleZ := 1 }
    else n
  else n

/-- The whole resolution pass on one node: STEP 3's material rebind, then
STEP 4's sections A–L, then STEP 5 and STEP 6.  Non-meshes are untouched
(`if (!child.isMesh) return;`). -/
def resolveNode (cfg : Config) (n : Node) : Node :=
  if n.isMesh then
    step6RoofScale cfg (step5HolderScale cfg (sectionL cfg (sectionK cfg (sectionJ cfg
      (sectionI cfg (sectionH cfg (sectionG cfg (sectionF cfg (sectionE cfg (sectionD cfg
        (sectionC cfg (sectionB cfg (sectionA cfg (step3Mat n))))))))))))))
  else n

/-- The pass over the whole tree: per-node mutations are independent, so
`scene.traverse` is a map. -/
def resolveScene (cfg : Config) (ns : List Node) : List Node :=
  ns.map (resolveNode cfg)

/-! ### Extracted visibility semantics

Each section's effect on the `visible` field, as a function of the
configuration, the node's name and the incoming visibility (section D
ignores the incoming visibility: it rewrites every mesh).  Each `visX` is
proved equal to the corresponding section's `visible` output; composing
them shows the resolved visibility of a mesh depends only on the
configuration and the node's name. -/

def visD (cfg : Config) (name : String) : Bool :=
  let nl := jsToLowerCase name
  if allGlassObjects.any (fun obj => nl == obj) then false
  else if cfg.verandaType == "freestanding" &&
      ["backglass", "backholder", "leftbackpiller", "rightbackpiller",
       "righbackpiller"].contains nl then true
  else visibleAtStart.any (fun obj => nl == obj)

def visE (_cfg : Config) (name : String) (v : Bool) : Bool :=
  let nl := jsToLowerCase name
  if alwaysVisibleStructural.contains nl then true else v

def visF (cfg : Config) (name : String) (v : Bool) : Bool :=
  let nl := jsToLowerCase name
  if cfg.enclosureEnabled then
    let leftEnclosureType := jsOr cfg.sideEnclosureTypes.left.material "glass"
    let v := if (leftMetalParts ++ leftWoodParts ++ leftWindowParts).contains nl
      then false else v
    if leftEnclosureType == "metal" then
      (if leftMetalParts.contains nl then true else v)
    else if leftEnclosureType == "wood" then
      (if leftWoodParts.contains nl then true else v)
    else if leftEnclosureType == "window" then
      (if leftWindowParts.contains nl then true else v)
    else v
  else v

def visG (cfg : Config) (name : String) (v : Bool) : Bool :=
  let nl := jsToLowerCase name
  if cfg.enclosureEnabled then
    let rightEnclosureType := jsOr cfg.sideEnclosureTypes.right.material "glass"
    let v := if (rightMetalParts ++ rightWoodParts ++ rightWindowParts).contains nl
      then false else v
    if rightEnclosureType == "metal" then
      (if rightMetalParts.contains nl then true else v)
    else if rightEnclosureType == "wood" then
      (if rightWoodParts.contains nl then true else v)
    else if rightEnclosureType == "window" then
      (if rightWindowParts.contains nl then true else v)
    else v
  else v

def visH (cfg : Config) (name : String) (v : Bool) : Bool :=
  let nl := jsToLowerCase name
  if cfg.enclosureEnabled then
    let frontGlassType := jsOr cfg.sideEnclosureTypes.front.glassType cfg.glassType
    let leftGlassType := jsOr cfg.sideEnclosureTypes.left.glassType cfg.glassType
    let rightGlassType := jsOr cfg.sideEnclosureTypes.right.glassType cfg.glassType
    let frontConfig := glassConfigsLookup frontGlassType
    let leftConfig := glassConfigsLookup leftGlassType
    let rightConfig := glassConfigsLookup rightGlassType
    let frontMaterialKey := jsOr cfg.sideEnclosureTypes.front.material "glass"
    let leftMaterialKey := jsOr cfg.sideEnclosureTypes.left.material "glass"
    let rightMaterialKey := jsOr cfg.sideEnclosureTypes.right.material "glass"
    let isLeftObject := jsEndsWith name "001"
    let isRightObject := jsEndsWith name "002"
    let isFrontObject := !isLeftObject && !isRightObject
    let baseName0 := nl
    let baseName1 := if isLeftObject then replaceFirst nl "001" else baseName0
    let baseName := if isRightObject then replaceFirst nl "002" else baseName1
    let isAnyGlassObject := glassConfigsList.any
      (fun p => (sectionHAllParts p.2).any (fun part => baseName == part))
    if isAnyGlassObject then
      let v2 := false
      let targetConfig := if isFrontObject then frontConfig
        else if isLeftObject then leftConfig else rightConfig
      let targetMaterialKey := if isFrontObject then frontMaterialKey
        else if isLeftObject then leftMaterialKey else rightMaterialKey
      if targetConfig.isSome && targetMaterialKey == "glass" then
        let tc := targetConfig.getD doubleConfig
        let isHolder := tc.holders.any (fun h => baseName == h)
        let isPanel := tc.glasses.any (fun g => baseName == g)
        let isBorder := tc.borders.any (fun b => baseName == b)
        let isSlider := tc.sliders.any (fun sl => baseName == sl)
        let isSingle := (tc.singleGlasses.getD []).any (fun sg => baseName == sg)
        let isGrid := baseName == tc.grid
        if isHolder || isPanel || isBorder || isSlider || isSingle || isGrid then
          let v3 := if isHolder || isSlider then true else v2
          let v4 := if isPanel || isSingle then true else v3
          let v5 := if isBorder then (cfg.glassStyle == "withframe" ||
              cfg.glassStyle == "grid") else v4
          if isGrid then (cfg.glassStyle == "grid") else v5
        else v2
      else v2
    else v
  else
    if (doubleConfig.holders ++ doubleConfig.glasses).contains nl then true else v

def visI (cfg : Config) (name : String) (v : Bool) : Bool :=
  let nl := jsToLowerCase name
  if cfg.roofPitchActive then
    let v := if ["normroof", "normroofglass", "pitchnormroof"].contains nl then false else v
    let v := if ["lightsround", "lightsrect", "lightssquare"].contains nl then false else v
    let v := if ["roofpitchbase", "roofpitchside", "roofpitchglass",
        "roofpitchshade"].contains nl then true else v
    if nl == "roofpitchglass" then true else v
  else
    let v := if ["roofpitchbase", "roofpitchside", "roofpitchglass",
        "roofpitchshade"].contains nl then false else v
    let v := if nl == "normroofglass" then true else v
    if cfg.verandaType == "wall-mounted" then
      let v := if nl == "pitchnormroof" then true else v
      if nl == "normroof" then false else v
    else if cfg.verandaType == "freestanding" then
      let v := if nl == "normroof" then true else v
      if nl == "pitchnormroof" then false else v
    else v

def visJ (cfg : Config) (name : String) (v : Bool) : Bool :=
  let nl := jsToLowerCase name
  if cfg.roofAwningPosition == "top" then
    if cfg.roofPitchActive then
      let v := if ["roofpitchawn", "roofpitchawnfabric"].contains nl then true else v
      if ["normawn", "normawnfabric"].contains nl then false else v
    else
      let v := if ["normawn", "normawnfabric"].contains nl then true else v
      if ["roofpitchawn", "roofpitchawnfabric"].contains nl then false else v
  else
    if ["normawn", "normawnfabric", "roofpitchawn", "roofpitchawnfabric"].contains nl then
      false
    else v

def visK (cfg : Config) (name : String) (v : Bool) : Bool :=
  let nl := jsToLowerCase name
  let v := if normalLights.any (fun l => nl == l) then false else v
  if cfg.lightsOn && !cfg.roofPitchActive then
    if cfg.lightShape == "circle" && nl == "lightsround" then true
    else if cfg.lightShape == "rectangle" && nl == "lightsrect" then true
    else if cfg.lightShape == "square" && nl == "lightssquare" then true
    else v
  else v

/-- The visibility a mesh named `name` has after the whole pass. -/
def visResolve (cfg : Config) (name : String) : Bool :=
  visK cfg name (visJ cfg name (visI cfg name (visH cfg name (visG cfg name
    (visF cfg name (visE cfg name (visD cfg name)))))))

theorem step3Mat_name (n : Node) : (step3Mat n).name = n.name := by
  unfold step3Mat
  split
  · split <;> rfl
  · rfl

theorem step3Mat_visible (n : Node) : (step3Mat n).visible = n.visible := by
  unfold step3Mat
  split
  · split <;> rfl
  · rfl

theorem sectionA_name (cfg : Config) (n : Node) : (sectionA cfg n).name = n.name := by
  unfold sectionA
  dsimp only
  simp only [apply_ite Node.name, ite_self]

theorem sectionB_name (cfg : Config) (n : Node) : (sectionB cfg n).name = n.name := by
  unfold sectionB
  dsimp only
  simp only [apply_ite Node.name, ite_self]

theorem sectionC_name (cfg : Config) (n : Node) : (sectionC cfg n).name = n.name := by
  unfold sectionC
  dsimp only
  simp only [apply_ite Node.name, ite_self]

theorem sectionD_name (cfg : Config) (n : Node) : (sectionD cfg n).name = n.name := by
  unfold sectionD
  dsimp only
  simp only [apply_ite Node.name, ite_self]

theorem sectionE_name (cfg : Config) (n : Node) : (sectionE cfg n).name = n.name := by
  unfold sectionE
  dsimp only
  simp only [apply_ite Node.name, ite_self]

theorem sectionF_name (cfg : Config) (n : Node) : (sectionF cfg n).name = n.name := by
  unfold sectionF
  dsimp only
  simp only [apply_ite Node.name, ite_self]

theorem sectionG_name (cfg : Config) (n : Node) : (sectionG cfg n).name = n.name := by
  unfold sectionG
  dsimp only
  simp only [apply_ite Node.name, ite_self]

theorem sectionH_name (cfg : Config) (n : Node) : (sectionH cfg n).name = n.name := by
  unfold sectionH
  dsimp only
  simp only [apply_ite Node.name, ite_self]

theorem sectionI_name (cfg : Config) (n : Node) : (sectionI cfg n).name = n.name := by
  unfold sectionI
  dsimp only
  simp only [apply_ite Node.name, ite_self]

theorem sectionJ_name (cfg : Config) (n : Node) : (sectionJ cfg n).name = n.name := by
  unfold sectionJ
  dsimp only
  simp only [apply_ite Node.name, ite_self]

theorem sectionK_name (cfg : Config) (n : Node) : (sectionK cfg n).name = n.name := by
  unfold sectionK
  dsimp only
  simp only [apply_ite Node.name, ite_self]

theorem sectionL_name (cfg : Config) (n : Node) : (sectionL cfg n).name = n.name := by
  unfold sectionL
  dsimp only
  simp only [apply_ite Node.name, ite_self]

theorem step5HolderScale_name (cfg : Config) (n : Node) :
    (step5HolderScale cfg n).name = n.name := by
  unfold step5HolderScale
  dsimp only
  simp only [apply_ite Node.name, ite_self]

theorem step6RoofScale_name (cfg : Config) (n : Node) :
    (step6RoofScale cfg n).name = n.name := by
  unfold step6RoofScale
  dsimp only
  simp only [apply_ite Node.name, ite_self]

theorem sectionL_visible (cfg : Config) (n : Node) : (sectionL cfg n).visible = n.visible := by
  unfold sectionL
  dsimp only
  simp only [apply_ite Node.visible, ite_self]

theorem step5HolderScale_visible (cfg : Config) (n : Node) :
    (step5HolderScale cfg n).visible = n.visible := by
  unfold step5HolderScale
  dsimp only
  simp only [apply_ite Node.visible, ite_self]

theorem step6RoofScale_visible (cfg : Config) (n : Node) :
    (step6RoofScale cfg n).visible = n.visible := by
  unfold step6RoofScale
  dsimp only
  simp only [apply_ite Node.visible, ite_self]

theorem sectionD_visible (cfg : Config) (n : Node) :
    (sectionD cfg n).visible = visD cfg n.name := by
  unfold sectionD visD
  dsimp only
  simp only [apply_ite Node.visible, ite_self]

theorem sectionE_visible (cfg : Config) (n : Node) :
    (sectionE cfg n).visible = visE cfg n.name n.visible := by
  unfold sectionE visE
  dsimp only
  simp only [apply_ite Node.visible, ite_self]

theorem sectionF_visible (cfg : Config) (n : Node) :
    (sectionF cfg n).visible = visF cfg n.name n.visible := by
  unfold sectionF visF
  dsimp only
  simp only [apply_ite Node.visible, ite_self]

theorem sectionG_visible (cfg : Config) (n : Node) :
    (sectionG cfg n).visible = visG cfg n.name n.visible := by
  unfold sectionG visG
  dsimp only
  simp only [apply_ite Node.visible, ite_self]

theorem sectionH_visible (cfg : Config) (n : Node) :
    (sectionH cfg n).visible = visH cfg n.name n.visible := by
  unfold sectionH visH
  dsimp only
  simp only [apply_ite Node.visible, ite_self]

theorem sectionI_visible (cfg : Config) (n : Node) :
    (sectionI cfg n).visible = visI cfg n.name n.visible := by
  unfold sectionI visI
  dsimp only
  simp only [apply_ite Node.visible, ite_self]

theorem sectionJ_visible (cfg : Config) (n : Node) :
    (sectionJ cfg n).visible = visJ cfg n.name n.visible := by
  unfold sectionJ visJ
  dsimp only
  simp only [apply_ite Node.visible, ite_self]

theorem sectionK_visible (cfg : Config) (n : Node) :
    (sectionK cfg n).visible = visK cfg n.name n.visible := by
  unfold sectionK visK
  dsimp only
  simp only [apply_ite Node.visible, ite_self]

/-- The resolved visibility of a mesh is a function of the configuration
and the node's name alone — section D rewrites every mesh's visibility and
the later sections only refine it by name. -/
theorem resolveNode_visible (cfg : Config) (n : Node) (h : n.isMesh = true) :
    (resolveNode cfg n).visible = visResolve cfg n.name := by
  unfold resolveNode
  rw [if_pos h]
  rw [step6RoofScale_visible, step5HolderScale_visible, sectionL_visible,
    sectionK_visible, sectionJ_visible, sectionI_visible, sectionH_visible,
    sectionG_visible, sectionF_visible, sectionE_visible, sectionD_visible]
  simp only [sectionJ_name, sectionI_name, sectionH_name, sectionG_name, sectionF_name,
    sectionE_name, sectionD_name, sectionC_name, sectionB_name, sectionA_name,
    step3Mat_name]
  rfl

theorem resolveNode_name (cfg : Config) (n : Node) : (resolveNode cfg n).name = n.name := by
  unfold resolveNode
  split
  · simp only [step6RoofScale_name, step5HolderScale_name, sectionL_name, sectionK_name,
      sectionJ_name, sectionI_name, sectionH_name, sectionG_name, sectionF_name,
      sectionE_name, sectionD_name, sectionC_name, sectionB_name, sectionA_name,
      step3Mat_name]
  · rfl

theorem step3Mat_isMesh (n : Node) : (step3Mat n).isMesh = n.isMesh := by
  unfold step3Mat
  split
  · split <;> rfl
  · rfl

theorem sectionA_isMesh (cfg : Config) (n : Node) : (sectionA cfg n).isMesh = n.isMesh := by
  unfold sectionA
  dsimp only
  simp only [apply_ite Node.isMesh, ite_self]

theorem sectionB_isMesh (cfg : Config) (n : Node) : (sectionB cfg n).isMesh = n.isMesh := by
  unfold sectionB
  dsimp only
  simp only [apply_ite Node.isMesh, ite_self]

theorem sectionC_isMesh (cfg : Config) (n : Node) : (sectionC cfg n).isMesh = n.isMesh := by
  unfold sectionC
  dsimp only
  simp only [apply_ite Node.isMesh, ite_self]

theorem sectionD_isMesh (cfg : Config) (n : Node) : (sectionD cfg n).isMesh = n.isMesh := by
  unfold sectionD
  dsimp only
  simp only [apply_ite Node.isMesh, ite_self]

theorem sectionE_isMesh (cfg : Config) (n : Node) : (sectionE cfg n).isMesh = n.isMesh := by
  unfold sectionE
  dsimp only
  simp only [apply_ite Node.isMesh, ite_self]

theorem sectionF_isMesh (cfg : Config) (n : Node) : (sectionF cfg n).isMesh = n.isMesh := by
  unfold sectionF
  dsimp only
  simp only [apply_ite Node.isMesh, ite_self]

theorem sectionG_isMesh (cfg : Config) (n : Node) : (sectionG cfg n).isMesh = n.isMesh := by
  unfold sectionG
  dsimp only
  simp only [apply_ite Node.isMesh, ite_self]

theorem sectionH_isMesh (cfg : Config) (n : Node) : (sectionH cfg n).isMesh = n.isMesh := by
  unfold sectionH
  dsimp only
  simp only [apply_ite Node.isMesh, ite_self]

theorem sectionI_isMesh (cfg : Config) (n : Node) : (sectionI cfg n).isMesh = n.isMesh := by
  unfold sectionI
  dsimp only
  simp only [apply_ite Node.isMesh, ite_self]

theorem sectionJ_isMesh (cfg : Config) (n : Node) : (sectionJ cfg n).isMesh = n.isMesh := by
  unfold sectionJ
  dsimp only
  simp only [apply_ite Node.isMesh, ite_self]

theorem sectionK_isMesh (cfg : Config) (n : Node) : (sectionK cfg n).isMesh = n.isMesh := by
  unfold sectionK
  dsimp only
  simp only [apply_ite Node.isMesh, ite_self]

theorem sectionL_isMesh (cfg : Config) (n : Node) : (sectionL cfg n).isMesh = n.isMesh := by
  unfold sectionL
  dsimp only
  simp only [apply_ite Node.isMesh, ite_self]

theorem step5HolderScale_isMesh (cfg : Config) (n : Node) :
    (step5HolderScale cfg n).isMesh = n.isMesh := by
  unfold step5HolderScale
  dsimp only
  simp only [apply_ite Node.isMesh, ite_self]

theorem step6RoofScale_isMesh (cfg : Config) (n : Node) :
    (step6RoofScale cfg n).isMesh = n.isMesh := by
  unfold step6RoofScale
  dsimp only
  simp only [apply_ite Node.isMesh, ite_self]

theorem resolveNode_isMesh (cfg : Config) (n : Node) :
    (resolveNode cfg n).isMesh = n.isMesh := by
  unfold resolveNode
  split
  · simp only [step6RoofScale_isMesh, step5HolderScale_isMesh, sectionL_isMesh,
      sectionK_isMesh, sectionJ_isMesh, sectionI_isMesh, sectionH_isMesh, sectionG_isMesh,
      sectionF_isMesh, sectionE_isMesh, sectionD_isMesh, sectionC_isMesh, sectionB_isMesh,
      sectionA_isMesh, step3Mat_isMesh]
  · rfl

/-! ### Roof regime visibility (C2) -/

section RoofRegime

set_option maxHeartbeats 4000000

theorem visResolve_roofpitchbase (cfg : Config) :
    visResolve cfg "roofpitchbase" = cfg.roofPitchActive := by
  have hl : jsToLowerCase "roofpitchbase" = "roofpitchbase" := by decide
  simp only [visResolve, visK, visJ, visI, visH, visG, visF, visE, visD, hl]
  simp +decide only [normalLights, List.any_cons, List.any_nil, List.contains_cons,
    List.mem_cons, jsEndsWith, replaceFirst]
  cases cfg.roofPitchActive <;> by_cases hw : cfg.verandaType == "wall-mounted" <;>
    by_cases hf : cfg.verandaType == "freestanding" <;>
    simp_all +decide [ite_self, visibleAtStart, beq_iff_eq]

theorem visResolve_roofpitchside (cfg : Config) :
    visResolve cfg "roofpitchside" = cfg.roofPitchActive := by
  have hl : jsToLowerCase "roofpitchside" = "roofpitchside" := by decide
  simp only [visResolve, visK, visJ, visI, visH, visG, visF, visE, visD, hl]
  simp +decide only [normalLights, List.any_cons, List.any_nil, List.contains_cons,
    List.mem_cons, jsEndsWith, replaceFirst]
  cases cfg.roofPitchActive <;> by_cases hw : cfg.verandaType == "wall-mounted" <;>
    by_cases hf : cfg.verandaType == "freestanding" <;>
    simp_all +decide [ite_self, visibleAtStart, beq_iff_eq]

theorem visResolve_roofpitchglass (cfg : Config) :
    visResolve cfg "roofpitchglass" = cfg.roofPitchActive := by
  have hl : jsToLowerCase "roofpitchglass" = "roofpitchglass" := by decide
  simp only [visResolve, visK, visJ, visI, visH, visG, visF, visE, visD, hl]
  simp +decide only [normalLights, List.any_cons, List.any_nil, List.contains_cons,
    List.mem_cons, jsEndsWith, replaceFirst]
  cases cfg.roofPitchActive <;> by_cases hw : cfg.verandaType == "wall-mounted" <;>
    by_cases hf : cfg.verandaType == "freestanding" <;>
    simp_all +decide [ite_self, visibleAtStart, beq_iff_eq]

theorem visResolve_roofpitchshade (cfg : Config) :
    visResolve cfg "roofpitchshade" = cfg.roofPitchActive := by
  have hl : jsToLowerCase "roofpitchshade" = "roofpitchshade" := by decide
  simp only [visResolve, visK, visJ, visI, visH, visG, visF, visE, visD, hl]
  simp +decide only [normalLights, List.any_cons, List.any_nil, List.contains_cons,
    List.mem_cons, jsEndsWith, replaceFirst]
  cases cfg.roofPitchActive <;> by_cases hw : cfg.verandaType == "wall-mounted" <;>
    by_cases hf : cfg.verandaType == "freestanding" <;>
    simp_all +decide [ite_self, visibleAtStart, beq_iff_eq]

theorem visResolve_normroofglass (cfg : Config) :
    visResolve cfg "normroofglass" = !cfg.roofPitchActive := by
  have hl : jsToLowerCase "normroofglass" = "normroofglass" := by decide
  simp only [visResolve, visK, visJ, visI, visH, visG, visF, visE, visD, hl]
  simp +decide only [normalLights, List.any_cons, List.any_nil, List.contains_cons,
    List.mem_cons, jsEndsWith, replaceFirst]
  cases cfg.roofPitchActive <;> by_cases hw : cfg.verandaType == "wall-mounted" <;>
    by_cases hf : cfg.verandaType == "freestanding" <;>
    simp_all +decide [ite_self, visibleAtStart, beq_iff_eq]

theorem visResolve_pitchnormroof (cfg : Config) :
    visResolve cfg "pitchnormroof"
      = (!cfg.roofPitchActive && cfg.verandaType == "wall-mounted") := by
  have hl : jsToLowerCase "pitchnormroof" = "pitchnormroof" := by decide
  simp only [visResolve, visK, visJ, visI, visH, visG, visF, visE, visD, hl]
  simp +decide only [normalLights, List.any_cons, List.any_nil, List.contains_cons,
    List.mem_cons, jsEndsWith, replaceFirst]
  cases cfg.roofPitchActive <;> by_cases hw : cfg.verandaType == "wall-mounted" <;>
    by_cases hf : cfg.verandaType == "freestanding" <;>
    simp_all +decide [ite_self, visibleAtStart, beq_iff_eq]

theorem visResolve_normroof (cfg : Config) :
    visResolve cfg "normroof"
      = (!cfg.roofPitchActive && !(cfg.verandaType == "wall-mounted")) := by
  have hl : jsToLowerCase "normroof" = "normroof" := by decide
  simp only [visResolve, visK, visJ, visI, visH, visG, visF, visE, visD, hl]
  simp +decide only [normalLights, List.any_cons, List.any_nil, List.contains_cons,
    List.mem_cons, jsEndsWith, replaceFirst]
  cases cfg.roofPitchActive <;> by_cases hw : cfg.verandaType == "wall-mounted" <;>
    by_cases hf : cfg.verandaType == "freestanding" <;>
    simp_all +decide [ite_self, visibleAtStart, beq_iff_eq]

end RoofRegime

/-- C2: after the resolution pass exactly one roof regime is visually
active.  When `roofPitchActive` is true the four pitched-roof meshes are
visible and all flat-roof meshes (`normroof`, `normroofglass`,
`pitchnormroof`) are hidden; when it is false the pitched meshes are
hidden, `normroofglass` is visible, and the `verandaType`-appropriate one
of `normroof` / `pitchnormroof` is visible while the other is hidden —
never both regimes, never neither. -/
theorem roof_regime_exclusive (cfg : Config) (n : Node) (hm : n.isMesh = true) :
    (cfg.roofPitchActive = true →
      ((n.name = "roofpitchbase" ∨ n.name = "roofpitchside" ∨ n.name = "roofpitchglass" ∨
        n.name = "roofpitchshade") → (resolveNode cfg n).visible = true) ∧
      ((n.name = "normroof" ∨ n.name = "normroofglass" ∨ n.name = "pitchnormroof") →
        (resolveNode cfg n).visible = false)) ∧
    (cfg.roofPitchActive = false →
      ((n.name = "roofpitchbase" ∨ n.name = "roofpitchside" ∨ n.name = "roofpitchglass" ∨
        n.name = "roofpitchshade") → (resolveNode cfg n).visible = false) ∧
      (n.name = "normroofglass" → (resolveNode cfg n).visible = true) ∧
      (cfg.verandaType = "wall-mounted" →
        (n.name = "pitchnormroof" → (resolveNode cfg n).visible = true) ∧
        (n.name = "normroof" → (resolveNode cfg n).visible = false)) ∧
      (cfg.verandaType = "freestanding" →
        (n.name = "normroof" → (resolveNode cfg n).visible = true) ∧
        (n.name = "pitchnormroof" → (resolveNode cfg n).visible = false))) := by
  have hres := resolveNode_visible cfg n hm
  constructor
  · intro hp
    constructor
    · rintro (hn | hn | hn | hn) <;> rw [hres, hn] <;>
        simp [visResolve_roofpitchbase, visResolve_roofpitchside, visResolve_roofpitchglass,
          visResolve_roofpitchshade, hp]
    · rintro (hn | hn | hn) <;> rw [hres, hn] <;>
        simp [visResolve_normroof, visResolve_normroofglass, visResolve_pitchnormroof, hp]
  · intro hp
    refine ⟨?_, ?_, ?_, ?_⟩
    · rintro (hn | hn | hn | hn) <;> rw [hres, hn] <;>
        simp [visResolve_roofpitchbase, visResolve_roofpitchside, visResolve_roofpitchglass,
          visResolve_roofpitchshade, hp]
    · intro hn; rw [hres, hn]; simp [visResolve_normroofglass, hp]
    · intro hw
      constructor
      · intro hn; rw [hres, hn]; simp [visResolve_pitchnormroof, hp, hw]
      · intro hn; rw [hres, hn]; simp [visResolve_normroof, hp, hw]
    · intro hf
      have hw : ¬(cfg.verandaType = "wall-mounted") := by
        rw [hf]; decide
      constructor
      · intro hn; rw [hres, hn]
        simp [visResolve_normroof, hp]
        simpa [beq_iff_eq] using hw
      · intro hn; rw [hres, hn]; simp [visResolve_pitchnormroof, hp, hw]

/-- A simple mesh node, authored invisible at the origin, used as a
concrete input by several witnesses. -/
def exampleNode (nm : String) : Node :=
  { name := nm, isMesh := true, visible := false, material := some (.named "m")
    scaleX := 1, scaleY := 1, scaleZ := 1, rotX := 0, posY := 0, posZ := 0
    userDataOriginalY := none, userDataOriginalZ := none }

/-- A flat-roof freestanding all-glass double configuration, used as a
concrete input by several witnesses. -/
def exampleCfgFlat : Config :=
  { roofPitchActive := false, roofPitchAngle := 0, roofAwningPosition := "none"
    metalMaterial := "anthracite", lightsOn := false, lightShape := "circle"
    timeOfDay := "day", lightColor := "#ffd700", glassType := "double"
    glassStyle := "withframe", enclosureEnabled := true, width := 5, depth := 4
    height := 3
    sideEnclosureTypes :=
      { front := { material := some "glass", glassType := some "double" }
        left := { material := some "glass", glassType := some "double" }
        right := { material := some "glass", glassType := some "double" } }
    verandaType := "freestanding", tintedGlassEnabled := false, glassColor := "clear" }

/-- Witness for C2: on the concrete flat-roof freestanding configuration
the `normroof` mesh resolves visible (via the theorem). -/
theorem roof_regime_exclusive_witness :
    (resolveNode exampleCfgFlat (exampleNode "normroof")).visible = true :=
  (((roof_regime_exclusive exampleCfgFlat (exampleNode "normroof")
    rfl).2 rfl).2.2.2 rfl).1 rfl

/-! ### Residual state of the resolution pass (C3) -/

/-- The pitched configuration used to exhibit residual transform state. -/
def exampleCfgPitch : Config :=
  { exampleCfgFlat with roofPitchActive := true, roofPitchAngle := 15 }

/-- An all-triple variant of the flat example configuration. -/
def exampleCfgTriple : Config :=
  { exampleCfgFlat with
    glassType := "triple"
    sideEnclosureTypes :=
      { front := { material := some "glass", glassType := some "triple" }
        left := { material := some "glass", glassType := some "triple" }
        right := { material := some "glass", glassType := some "triple" } } }

/-- C3 counterexample: the resolution pass is not memoryless on the full
node state.  Under the all-triple config A the `oneglassleft` panel is
hidden and its material untouched; resolving A, then the double config B
(which binds the panel to the resolved glass material), then A again
leaves B's glass material in place, whereas resolving A on the fresh tree
leaves the authored material.  (The pitch rotation/scale writes of section
I and the awning `userData` stash retain residual state the same way.) -/
theorem resolve_not_memoryless_counterexample :
    (resolveNode exampleCfgTriple (resolveNode exampleCfgFlat
        (resolveNode exampleCfgTriple (exampleNode "oneglassleft")))).material
      ≠ (resolveNode exampleCfgTriple (exampleNode "oneglassleft")).material := by
  decide

/-- C3 amended: the pass is memoryless for node *visibility* (section D
rewrites every mesh's visibility from the configuration and name alone, so
no visibility state survives an intermediate configuration), though
transforms, materials and `userData` may retain residual values as the
counterexample shows. -/
theorem resolve_visibility_memoryless (a b : Config) (ns : List Node)
    (h : ∀ n ∈ ns, n.isMesh = true) :
    (resolveScene a (resolveScene b (resolveScene a ns))).map Node.visible
      = (resolveScene a ns).map Node.visible := by
  unfold resolveScene
  simp only [List.map_map, List.map_inj_left]
  intro n hn
  have hm := h n hn
  have hm1 : (resolveNode a n).isMesh = true := by rw [resolveNode_isMesh]; exact hm
  have hm2 : (resolveNode b (resolveNode a n)).isMesh = true := by
    rw [resolveNode_isMesh]; exact hm1
  simp only [Function.comp_apply]
  rw [resolveNode_visible a _ hm2, resolveNode_visible a n hm,
    resolveNode_name, resolveNode_name]

/-- Witness for C3's amended theorem at a one-node scene. -/
theorem resolve_visibility_memoryless_witness :
    (∀ n ∈ [exampleNode "roofpitchside"], n.isMesh = true) ∧
    (resolveScene exampleCfgFlat (resolveScene exampleCfgPitch
        (resolveScene exampleCfgFlat [exampleNode "roofpitchside"]))).map Node.visible
      = (resolveScene exampleCfgFlat [exampleNode "roofpitchside"]).map Node.visible :=
  ⟨by decide, resolve_visibility_memoryless exampleCfgFlat exampleCfgPitch
    [exampleNode "roofpitchside"] (by decide)⟩

/-! ### Glass family exclusivity (C1) and glass-type fallback (C4)

A glass-part node's side is determined by its name suffix (`001` left,
`002` right, none front); the part tables are concrete, so the needed
facts about the part names (lowercase, no stray suffixes, per-family
disjointness) are decidable. -/

/-- The three enclosure sides, as addressed by section H's suffix logic. -/
inductive Side where
  | front : Side
  | left : Side
  | right : Side
deriving DecidableEq, Repr

/-- The name suffix marking a side's instance of a part. -/
def sideSuffix : Side → String
  | .front => ""
  | .left => "001"
  | .right => "002"

/-- The side's `sideEnclosureTypes` entry. -/
def sideEntryOf (cfg : Config) : Side → SideEntry
  | .front => cfg.sideEnclosureTypes.front
  | .left => cfg.sideEnclosureTypes.left
  | .right => cfg.sideEnclosureTypes.right

/-- The side's effective glass-type key (`sideEnclosureTypes.side?.glassType
|| glassType`). -/
def sideGlassTypeKey (cfg : Config) (σ : Side) : String :=
  jsOr (sideEntryOf cfg σ).glassType cfg.glassType

/-- The side's effective material key (`sideEnclosureTypes.side?.material
|| 'glass'`). -/
def sideMaterialKey (cfg : Config) (σ : Side) : String :=
  jsOr (sideEntryOf cfg σ).material "glass"

/-- Every glass-family part name (section H's tables, all five families). -/
def allFamilyParts : List String :=
  sectionHAllParts doubleConfig ++ sectionHAllParts tripleConfig ++
  sectionHAllParts fourfoldConfig ++ sectionHAllParts fivefoldConfig ++
  sectionHAllParts sixfoldConfig

/-- The family part set that section H can leave visible on a side: the
side's selected family when its material is `'glass'` and its glass-type
key is known; nothing otherwise.  With the enclosure disabled only
`double` parts remain visible, and only on the front (suffixless) side. -/
def activeFamilyParts (cfg : Config) (σ : Side) : List String :=
  if cfg.enclosureEnabled then
    if sideMaterialKey cfg σ = "glass" then
      match glassConfigsLookup (sideGlassTypeKey cfg σ) with
      | some tc => sectionHAllParts tc
      | none => []
    else []
  else
    match σ with
    | .front => sectionHAllParts doubleConfig
    | _ => []

theorem jsToLowerCase_append (a b : String) :
    jsToLowerCase (a ++ b) = jsToLowerCase a ++ jsToLowerCase b := by
  obtain ⟨la⟩ := a
  obtain ⟨lb⟩ := b
  show String.mk ((la ++ lb).map Char.toLower)
      = String.mk (la.map Char.toLower) ++ String.mk (lb.map Char.toLower)
  rw [List.map_append]
  rfl

theorem jsEndsWith_append_self (a b : String) : jsEndsWith (a ++ b) b = true := by
  obtain ⟨la⟩ := a
  obtain ⟨lb⟩ := b
  show jsEndsWith (String.mk (la ++ lb)) (String.mk lb) = true
  unfold jsEndsWith
  have hlen : lb.length ≤ (la ++ lb).length := by simp
  have hdrop : (la ++ lb).drop ((la ++ lb).length - lb.length) = lb := by
    have : (la ++ lb).length - lb.length = la.length := by simp
    rw [this, List.drop_left]
  simp [hlen, hdrop]

theorem jsEndsWith_append_of_length (a b c : String)
    (hlen : c.data.length = b.data.length) :
    jsEndsWith (a ++ b) c = (b.data == c.data) := by
  obtain ⟨la⟩ := a
  obtain ⟨lb⟩ := b
  obtain ⟨lc⟩ := c
  show jsEndsWith (String.mk (la ++ lb)) (String.mk lc) = (lb == lc)
  unfold jsEndsWith
  simp only at hlen
  have h1 : lc.length ≤ la.length + lb.length := by omega
  have hdrop : List.drop (la.length + lb.length - lc.length) (la ++ lb) = lb := by
    have he : la.length + lb.length - lc.length = la.length := by omega
    rw [he, List.drop_left]
  simp [h1, hdrop]

theorem string_append_empty (a : String) : a ++ "" = a := by
  obtain ⟨la⟩ := a
  show String.mk (la ++ []) = String.mk la
  rw [List.append_nil]

/-- `x ∉ l` as a `Bool` fact about `l.any (x == ·)`. -/
theorem any_beq_eq_false {l : List String} {x : String} (h : x ∉ l) :
    (l.any (fun q => x == q)) = false := by
  rw [Bool.eq_false_iff]
  intro hc
  obtain ⟨q, hq, he⟩ := List.any_eq_true.mp hc
  exact h (beq_iff_eq.mp he ▸ hq)

/-- `x ∉ l` as a `Bool` fact about `l.contains x`. -/
theorem contains_eq_false {l : List String} {x : String} (h : x ∉ l) :
    (l.contains x) = false := by
  rw [Bool.eq_false_iff]
  intro hc
  exact h (List.elem_iff.mp hc)

theorem visE_pass (cfg : Config) (name : String) (v : Bool) : visE cfg name v = v := by
  simp [visE, alwaysVisibleStructural]

theorem visF_pass (cfg : Config) (name : String) (v : Bool)
    (h : jsToLowerCase name ∉ leftMetalParts ++ leftWoodParts ++ leftWindowParts) :
    visF cfg name v = v := by
  have h1 : jsToLowerCase name ∉ leftMetalParts := fun hx => h (by simp [hx])
  have h2 : jsToLowerCase name ∉ leftWoodParts := fun hx => h (by simp [hx])
  have h3 : jsToLowerCase name ∉ leftWindowParts := fun hx => h (by simp [hx])
  simp only [visF, contains_eq_false h, contains_eq_false h1, contains_eq_false h2,
    contains_eq_false h3, Bool.false_eq_true, if_false, ite_self]

theorem visG_pass (cfg : Config) (name : String) (v : Bool)
    (h : jsToLowerCase name ∉ rightMetalParts ++ rightWoodParts ++ rightWindowParts) :
    visG cfg name v = v := by
  have h1 : jsToLowerCase name ∉ rightMetalParts := fun hx => h (by simp [hx])
  have h2 : jsToLowerCase name ∉ rightWoodParts := fun hx => h (by simp [hx])
  have h3 : jsToLowerCase name ∉ rightWindowParts := fun hx => h (by simp [hx])
  simp only [visG, contains_eq_false h, contains_eq_false h1, contains_eq_false h2,
    contains_eq_false h3, Bool.false_eq_true, if_false, ite_self]

theorem visI_pass (cfg : Config) (name : String) (v : Bool)
    (h1 : jsToLowerCase name ∉ ["normroof", "normroofglass", "pitchnormroof"])
    (h2 : jsToLowerCase name ∉ ["lightsround", "lightsrect", "lightssquare"])
    (h3 : jsToLowerCase name ∉
      ["roofpitchbase", "roofpitchside", "roofpitchglass", "roofpitchshade"]) :
    visI cfg name v = v := by
  have e1 : jsToLowerCase name ≠ "roofpitchglass" := fun hx => h3 (by simp [hx])
  have e2 : jsToLowerCase name ≠ "normroofglass" := fun hx => h1 (by simp [hx])
  have e3 : jsToLowerCase name ≠ "pitchnormroof" := fun hx => h1 (by simp [hx])
  have e4 : jsToLowerCase name ≠ "normroof" := fun hx => h1 (by simp [hx])
  simp only [visI, contains_eq_false h1, contains_eq_false h2, contains_eq_false h3,
    beq_eq_false_iff_ne.mpr e1, beq_eq_false_iff_ne.mpr e2, beq_eq_false_iff_ne.mpr e3,
    beq_eq_false_iff_ne.mpr e4, Bool.false_eq_true, if_false, ite_self]

theorem visJ_pass (cfg : Config) (name : String) (v : Bool)
    (h : jsToLowerCase name ∉
      ["normawn", "normawnfabric", "roofpitchawn", "roofpitchawnfabric"]) :
    visJ cfg name v = v := by
  have h1 : jsToLowerCase name ∉ (["roofpitchawn", "roofpitchawnfabric"] : List String) :=
    fun hx => h (by rcases List.mem_cons.mp hx with hx' | hx' <;> simp_all)
  have h2 : jsToLowerCase name ∉ (["normawn", "normawnfabric"] : List String) :=
    fun hx => h (by rcases List.mem_cons.mp hx with hx' | hx' <;> simp_all)
  simp only [visJ, contains_eq_false h, contains_eq_false h1, contains_eq_false h2,
    Bool.false_eq_true, if_false, ite_self]

theorem visK_pass (cfg : Config) (name : String) (v : Bool)
    (h : jsToLowerCase name ∉ normalLights) :
    visK cfg name v = v := by
  have e1 : jsToLowerCase name ≠ "lightsround" := fun hx => h (by simp [normalLights, hx])
  have e2 : jsToLowerCase name ≠ "lightsrect" := fun hx => h (by simp [normalLights, hx])
  have e3 : jsToLowerCase name ≠ "lightssquare" := fun hx => h (by simp [normalLights, hx])
  simp only [visK, any_beq_eq_false h, beq_eq_false_iff_ne.mpr e1,
    beq_eq_false_iff_ne.mpr e2, beq_eq_false_iff_ne.mpr e3, Bool.false_eq_true, if_false,
    Bool.and_false, ite_self]

/-- A string ending in `sfx` cannot be in a list none of whose entries
ends in `sfx`. -/
theorem not_mem_of_endsWith {x sfx : String} (hx : jsEndsWith x sfx = true)
    {l : List String} (hl : ∀ q ∈ l, jsEndsWith q sfx = false) : x ∉ l := by
  intro hmem
  rw [hl x hmem] at hx
  exact Bool.false_ne_true hx

/-- The decidable name facts about every glass-family part: lowercase, no
`001`/`002` suffix, suffix-stripping recovers the part, and disjointness
from every name list the other resolution sections test. -/
theorem allFamilyParts_facts : ∀ q ∈ allFamilyParts,
    jsToLowerCase q = q ∧
    jsEndsWith q "001" = false ∧ jsEndsWith q "002" = false ∧
    replaceFirst (q ++ "001") "001" = q ∧ replaceFirst (q ++ "002") "002" = q ∧
    q ∉ leftMetalParts ++ leftWoodParts ++ leftWindowParts ∧
    q ∉ rightMetalParts ++ rightWoodParts ++ rightWindowParts ∧
    q ∉ ["normroof", "normroofglass", "pitchnormroof"] ∧
    q ∉ ["lightsround", "lightsrect", "lightssquare"] ∧
    q ∉ ["roofpitchbase", "roofpitchside", "roofpitchglass", "roofpitchshade"] ∧
    q ∉ ["normawn", "normawnfabric", "roofpitchawn", "roofpitchawnfabric"] ∧
    q ∉ normalLights ∧
    q ∉ ["backglass", "backholder", "leftbackpiller", "rightbackpiller",
      "righbackpiller"] := by decide

set_option maxRecDepth 8000 in
/-- No name tested by the other sections carries a side suffix. -/
theorem sectionNames_no_suffix : ∀ q ∈ leftMetalParts ++ leftWoodParts ++ leftWindowParts
      ++ rightMetalParts ++ rightWoodParts ++ rightWindowParts
      ++ ["normroof", "normroofglass", "pitchnormroof"]
      ++ ["lightsround", "lightsrect", "lightssquare"]
      ++ ["roofpitchbase", "roofpitchside", "roofpitchglass", "roofpitchshade"]
      ++ ["normawn", "normawnfabric", "roofpitchawn", "roofpitchawnfabric"]
      ++ normalLights ++ visibleAtStart ++ allGlassObjects
      ++ doubleConfig.holders ++ doubleConfig.glasses
      ++ ["backglass", "backholder", "leftbackpiller", "rightbackpiller",
        "righbackpiller"],
    jsEndsWith q "001" = false ∧ jsEndsWith q "002" = false := by decide

/-- The `visibleAtStart` and enclosure-off `double` entries that are glass
parts all belong to the `double` family's table. -/
theorem double_landing_facts : ∀ q ∈ allFamilyParts,
    (q ∈ doubleConfig.holders ++ doubleConfig.glasses → q ∈ sectionHAllParts doubleConfig) ∧
    (q ∈ visibleAtStart → q ∈ sectionHAllParts doubleConfig) := by decide

/-- `p` being a family part makes section H's `isAnyGlassObject` true. -/
theorem isAny_of_mem {p : String} (hp : p ∈ allFamilyParts) :
    (glassConfigsList.any
      (fun pr => (sectionHAllParts pr.2).any (fun part => p == part))) = true := by
  rw [List.any_eq_true]
  have hp5 := hp
  simp only [allFamilyParts, List.mem_append] at hp5
  rcases hp5 with ((((h | h) | h) | h) | h)
  · exact ⟨("double", doubleConfig), by simp [glassConfigsList],
      List.any_eq_true.mpr ⟨p, h, by simp⟩⟩
  · exact ⟨("triple", tripleConfig), by simp [glassConfigsList],
      List.any_eq_true.mpr ⟨p, h, by simp⟩⟩
  · exact ⟨("fourfold", fourfoldConfig), by simp [glassConfigsList],
      List.any_eq_true.mpr ⟨p, h, by simp⟩⟩
  · exact ⟨("fivefold", fivefoldConfig), by simp [glassConfigsList],
      List.any_eq_true.mpr ⟨p, h, by simp⟩⟩
  · exact ⟨("sixfold", sixfoldConfig), by simp [glassConfigsList],
      List.any_eq_true.mpr ⟨p, h, by simp⟩⟩

/-- The six part-class `any`s of section H's show-branch imply membership
in the family's full part table. -/
theorem sectionH_disj_mem {p : String} {tc : GlassConfig}
    (hd : (tc.holders.any (fun h => p == h) || tc.glasses.any (fun g => p == g) ||
      tc.borders.any (fun b => p == b) || tc.sliders.any (fun sl => p == sl) ||
      (tc.singleGlasses.getD []).any (fun sg => p == sg) || (p == tc.grid)) = true) :
    p ∈ sectionHAllParts tc := by
  simp only [Bool.or_eq_true, List.any_eq_true, beq_iff_eq] at hd
  simp only [sectionHAllParts, gcAllObjects, List.mem_append, List.mem_singleton]
  rcases hd with ((((⟨q, hq, rfl⟩ | ⟨q, hq, rfl⟩) | ⟨q, hq, rfl⟩) | ⟨q, hq, rfl⟩) |
    ⟨q, hq, rfl⟩) | rfl <;> tauto

/-- Section H analysis for a front (suffixless) instance of a family part:
if H leaves it visible, the part belongs to the front's active family. -/
theorem visH_mem_front (cfg : Config) (p : String) (hp : p ∈ allFamilyParts)
    (hvis : visH cfg p (visD cfg p) = true) : p ∈ activeFamilyParts cfg Side.front := by
  obtain ⟨hlowp, hE1, hE2, hR1, hR2, nmF, nmG, nmI1, nmI2, nmI3, nmJ, nmK, nmBack⟩ :=
    allFamilyParts_facts p hp
  unfold visH at hvis
  dsimp only at hvis
  rw [hlowp, hE1, hE2] at hvis
  simp only [Bool.not_false, Bool.and_self, Bool.false_eq_true, if_false,
    eq_self_iff_true, if_true, isAny_of_mem hp] at hvis
  by_cases henc : cfg.enclosureEnabled = true
  · rw [if_pos henc] at hvis
    cases hlk : glassConfigsLookup (jsOr cfg.sideEnclosureTypes.front.glassType
        cfg.glassType) with
    | none =>
      rw [hlk] at hvis
      simp at hvis
    | some tc =>
      rw [hlk] at hvis
      simp only [Option.isSome_some, Bool.true_and, Option.getD_some] at hvis
      by_cases hmat : (jsOr cfg.sideEnclosureTypes.front.material "glass" == "glass") = true
      · rw [if_pos hmat] at hvis
        split at hvis
        · next hd =>
          have hmem := sectionH_disj_mem hd
          unfold activeFamilyParts
          have hm2 : sideMaterialKey cfg Side.front = "glass" := by
            simp only [sideMaterialKey, sideEntryOf]
            exact beq_iff_eq.mp hmat
          rw [if_pos henc, if_pos hm2]
          simp only [sideGlassTypeKey, sideEntryOf, hlk]
          exact hmem
        · exact absurd hvis Bool.false_ne_true
      · rw [if_neg hmat] at hvis
        exact absurd hvis Bool.false_ne_true
  · rw [if_neg henc] at hvis
    unfold activeFamilyParts
    rw [if_neg henc]
    by_cases hdg : ((doubleConfig.holders ++ doubleConfig.glasses).contains p) = true
    · exact (double_landing_facts p hp).1 (List.elem_iff.mp hdg)
    · rw [if_neg hdg] at hvis
      unfold visD at hvis
      dsimp only at hvis
      rw [hlowp] at hvis
      by_cases hag : (allGlassObjects.any (fun obj => p == obj)) = true
      · rw [if_pos hag] at hvis
        exact absurd hvis Bool.false_ne_true
      · rw [if_neg hag, contains_eq_false nmBack] at hvis
        simp only [Bool.and_false, Bool.false_eq_true, if_false] at hvis
        obtain ⟨q, hq, he⟩ := List.any_eq_true.mp hvis
        exact (double_landing_facts p hp).2 (beq_iff_eq.mp he ▸ hq)

/-- Section H analysis for a left (`001`-suffixed) instance of a family
part: if H leaves it visible, the part belongs to the left side's active
family. -/
theorem visH_mem_left (cfg : Config) (p : String) (hp : p ∈ allFamilyParts)
    (hvis : visH cfg (p ++ "001") (visD cfg (p ++ "001")) = true) :
    p ∈ activeFamilyParts cfg Side.left := by
  obtain ⟨hlowp, hE1, hE2, hR1, hR2, nmF, nmG, nmI1, nmI2, nmI3, nmJ, nmK, nmBack⟩ :=
    allFamilyParts_facts p hp
  have hlow : jsToLowerCase (p ++ "001") = p ++ "001" := by
    rw [jsToLowerCase_append, hlowp, show jsToLowerCase "001" = "001" from by decide]
  have hself : jsEndsWith (p ++ "001") "001" = true := jsEndsWith_append_self p "001"
  have hother : jsEndsWith (p ++ "001") "002" = false := by
    rw [jsEndsWith_append_of_length p "001" "002" (by decide)]
    decide
  unfold visH at hvis
  dsimp only at hvis
  rw [hlow, hself, hother] at hvis
  simp only [Bool.not_true, Bool.not_false, Bool.false_and, Bool.and_false,
    Bool.false_eq_true, if_false, eq_self_iff_true, if_true, hR1, isAny_of_mem hp] at hvis
  by_cases henc : cfg.enclosureEnabled = true
  · rw [if_pos henc] at hvis
    cases hlk : glassConfigsLookup (jsOr cfg.sideEnclosureTypes.left.glassType
        cfg.glassType) with
    | none =>
      rw [hlk] at hvis
      simp at hvis
    | some tc =>
      rw [hlk] at hvis
      simp only [Option.isSome_some, Bool.true_and, Option.getD_some] at hvis
      by_cases hmat : (jsOr cfg.sideEnclosureTypes.left.material "glass" == "glass") = true
      · rw [if_pos hmat] at hvis
        split at hvis
        · next hd =>
          have hmem := sectionH_disj_mem hd
          unfold activeFamilyParts
          have hm2 : sideMaterialKey cfg Side.left = "glass" := by
            simp only [sideMaterialKey, sideEntryOf]
            exact beq_iff_eq.mp hmat
          rw [if_pos henc, if_pos hm2]
          simp only [sideGlassTypeKey, sideEntryOf, hlk]
          exact hmem
        · exact absurd hvis Bool.false_ne_true
      · rw [if_neg hmat] at hvis
        exact absurd hvis Bool.false_ne_true
  · rw [if_neg henc] at hvis
    have hdg : ((doubleConfig.holders ++ doubleConfig.glasses).contains (p ++ "001"))
        = false :=
      contains_eq_false (not_mem_of_endsWith hself (by decide))
    rw [hdg] at hvis
    simp only [Bool.false_eq_true, if_false] at hvis
    unfold visD at hvis
    dsimp only at hvis
    rw [hlow, any_beq_eq_false (not_mem_of_endsWith hself (by decide)),
      contains_eq_false (not_mem_of_endsWith hself (by decide)),
      any_beq_eq_false (not_mem_of_endsWith hself (by decide))] at hvis
    simp only [Bool.and_false, Bool.false_eq_true, if_false] at hvis

/-- Section H analysis for a right (`002`-suffixed) instance of a family
part: if H leaves it visible, the part belongs to the right side's active
family. -/
theorem visH_mem_right (cfg : Config) (p : String) (hp : p ∈ allFamilyParts)
    (hvis : visH cfg (p ++ "002") (visD cfg (p ++ "002")) = true) :
    p ∈ activeFamilyParts cfg Side.right := by
  obtain ⟨hlowp, hE1, hE2, hR1, hR2, nmF, nmG, nmI1, nmI2, nmI3, nmJ, nmK, nmBack⟩ :=
    allFamilyParts_facts p hp
  have hlow : jsToLowerCase (p ++ "002") = p ++ "002" := by
    rw [jsToLowerCase_append, hlowp, show jsToLowerCase "002" = "002" from by decide]
  have hself : jsEndsWith (p ++ "002") "002" = true := jsEndsWith_append_self p "002"
  have hother : jsEndsWith (p ++ "002") "001" = false := by
    rw [jsEndsWith_append_of_length p "002" "001" (by decide)]
    decide
  unfold visH at hvis
  dsimp only at hvis
  rw [hlow, hself, hother] at hvis
  simp only [Bool.not_true, Bool.not_false, Bool.false_and, Bool.true_and,
    Bool.and_false, Bool.false_eq_true, if_false, eq_self_iff_true, if_true, hR2,
    isAny_of_mem hp] at hvis
  by_cases henc : cfg.enclosureEnabled = true
  · rw [if_pos henc] at hvis
    cases hlk : glassConfigsLookup (jsOr cfg.sideEnclosureTypes.right.glassType
        cfg.glassType) with
    | none =>
      rw [hlk] at hvis
      simp at hvis
    | some tc =>
      rw [hlk] at hvis
      simp only [Option.isSome_some, Bool.true_and, Option.getD_some] at hvis
      by_cases hmat : (jsOr cfg.sideEnclosureTypes.right.material "glass" == "glass") = true
      · rw [if_pos hmat] at hvis
        split at hvis
        · next hd =>
          have hmem := sectionH_disj_mem hd
          unfold activeFamilyParts
          have hm2 : sideMaterialKey cfg Side.right = "glass" := by
            simp only [sideMaterialKey, sideEntryOf]
            exact beq_iff_eq.mp hmat
          rw [if_pos henc, if_pos hm2]
          simp only [sideGlassTypeKey, sideEntryOf, hlk]
          exact hmem
        · exact absurd hvis Bool.false_ne_true
      · rw [if_neg hmat] at hvis
        exact absurd hvis Bool.false_ne_true
  · rw [if_neg henc] at hvis
    have hdg : ((doubleConfig.holders ++ doubleConfig.glasses).contains (p ++ "002"))
        = false :=
      contains_eq_false (not_mem_of_endsWith hself (by decide))
    rw [hdg] at hvis
    simp only [Bool.false_eq_true, if_false] at hvis
    unfold visD at hvis
    dsimp only at hvis
    rw [hlow, any_beq_eq_false (not_mem_of_endsWith hself (by decide)),
      contains_eq_false (not_mem_of_endsWith hself (by decide)),
      any_beq_eq_false (not_mem_of_endsWith hself (by decide))] at hvis
    simp only [Bool.and_false, Bool.false_eq_true, if_false] at hvis

/-- Workhorse: a family part's mesh (on any side, i.e. under any side
suffix) is left visible by the resolution pass only if the part belongs to
that side's active family part set. -/
theorem resolved_glasspart_visible_mem (cfg : Config) (σ : Side) (p : String) (n : Node)
    (hp : p ∈ allFamilyParts) (hm : n.isMesh = true)
    (hname : n.name = p ++ sideSuffix σ)
    (hvis : (resolveNode cfg n).visible = true) :
    p ∈ activeFamilyParts cfg σ := by
  obtain ⟨hlowp, hE1, hE2, hR1, hR2, nmF, nmG, nmI1, nmI2, nmI3, nmJ, nmK, nmBack⟩ :=
    allFamilyParts_facts p hp
  rw [resolveNode_visible cfg n hm, hname] at hvis
  cases σ with
  | front =>
    rw [show p ++ sideSuffix Side.front = p from string_append_empty p] at hvis
    unfold visResolve at hvis
    rw [visE_pass, visF_pass _ _ _ (by rw [hlowp]; exact nmF),
      visG_pass _ _ _ (by rw [hlowp]; exact nmG),
      visI_pass _ _ _ (by rw [hlowp]; exact nmI1) (by rw [hlowp]; exact nmI2)
        (by rw [hlowp]; exact nmI3),
      visJ_pass _ _ _ (by rw [hlowp]; exact nmJ),
      visK_pass _ _ _ (by rw [hlowp]; exact nmK)] at hvis
    exact visH_mem_front cfg p hp hvis
  | left =>
    rw [show sideSuffix Side.left = "001" from rfl] at hvis
    have hself : jsEndsWith (p ++ "001") "001" = true := jsEndsWith_append_self p "001"
    have hlow : jsToLowerCase (p ++ "001") = p ++ "001" := by
      rw [jsToLowerCase_append, hlowp, show jsToLowerCase "001" = "001" from by decide]
    unfold visResolve at hvis
    rw [visE_pass,
      visF_pass _ _ _ (by rw [hlow]; exact not_mem_of_endsWith hself (by decide)),
      visG_pass _ _ _ (by rw [hlow]; exact not_mem_of_endsWith hself (by decide)),
      visI_pass _ _ _ (by rw [hlow]; exact not_mem_of_endsWith hself (by decide))
        (by rw [hlow]; exact not_mem_of_endsWith hself (by decide))
        (by rw [hlow]; exact not_mem_of_endsWith hself (by decide)),
      visJ_pass _ _ _ (by rw [hlow]; exact not_mem_of_endsWith hself (by decide)),
      visK_pass _ _ _ (by rw [hlow]; exact not_mem_of_endsWith hself (by decide))] at hvis
    exact visH_mem_left cfg p hp hvis
  | right =>
    rw [show sideSuffix Side.right = "002" from rfl] at hvis
    have hself : jsEndsWith (p ++ "002") "002" = true := jsEndsWith_append_self p "002"
    have hlow : jsToLowerCase (p ++ "002") = p ++ "002" := by
      rw [jsToLowerCase_append, hlowp, show jsToLowerCase "002" = "002" from by decide]
    unfold visResolve at hvis
    rw [visE_pass,
      visF_pass _ _ _ (by rw [hlow]; exact not_mem_of_endsWith hself (by decide)),
      visG_pass _ _ _ (by rw [hlow]; exact not_mem_of_endsWith hself (by decide)),
      visI_pass _ _ _ (by rw [hlow]; exact not_mem_of_endsWith hself (by decide))
        (by rw [hlow]; exact not_mem_of_endsWith hself (by decide))
        (by rw [hlow]; exact not_mem_of_endsWith hself (by decide)),
      visJ_pass _ _ _ (by rw [hlow]; exact not_mem_of_endsWith hself (by decide)),
      visK_pass _ _ _ (by rw [hlow]; exact not_mem_of_endsWith hself (by decide))] at hvis
    exact visH_mem_right cfg p hp hvis

theorem slookup_eq_some_mem {α : Type} {l : List (String × α)} {k : String} {v : α}
    (h : slookup l k = some v) : (k, v) ∈ l := by
  unfold slookup at h
  cases hf : l.find? (fun p => p.1 == k) with
  | none => rw [hf] at h; simp at h
  | some q =>
    rw [hf] at h
    have hmem := List.mem_of_find?_eq_some hf
    have hpred := List.find?_some hf
    have hk : q.1 = k := by simpa using hpred
    have hv : q.2 = v := by simpa using h
    have : q = (k, v) := by cases q; simp_all
    exact this ▸ hmem

theorem glassConfigsLookup_eq_some_mem {k : String} {c : GlassConfig}
    (h : glassConfigsLookup k = some c) : (k, c) ∈ glassConfigsList := by
  unfold glassConfigsLookup at h
  cases hs : slookup glassConfigsList k with
  | none => rw [hs] at h; simp at h
  | some c' =>
    rw [hs] at h
    simp only [Option.some.injEq] at h
    exact h ▸ slookup_eq_some_mem hs

/-- The five families' part tables are pairwise disjoint. -/
theorem families_disjoint : ∀ a ∈ glassConfigsList, ∀ b ∈ glassConfigsList,
    a.1 ≠ b.1 → ∀ q ∈ sectionHAllParts a.2, q ∉ sectionHAllParts b.2 := by decide

theorem mem_allFamilyParts : ∀ e ∈ glassConfigsList, ∀ q ∈ sectionHAllParts e.2,
    q ∈ allFamilyParts := by decide

/-- A nonempty active part set is exactly one listed family's table. -/
theorem activeFamilyParts_family (cfg : Config) (σ : Side) (q : String)
    (hq : q ∈ activeFamilyParts cfg σ) :
    ∃ e, e ∈ glassConfigsList ∧ activeFamilyParts cfg σ = sectionHAllParts e.2 := by
  unfold activeFamilyParts at hq ⊢
  by_cases henc : cfg.enclosureEnabled = true
  · rw [if_pos henc] at hq ⊢
    by_cases hmk : sideMaterialKey cfg σ = "glass"
    · rw [if_pos hmk] at hq ⊢
      cases hlk : glassConfigsLookup (sideGlassTypeKey cfg σ) with
      | none => rw [hlk] at hq; exact absurd hq (List.not_mem_nil q)
      | some tc =>
        exact ⟨(sideGlassTypeKey cfg σ, tc), glassConfigsLookup_eq_some_mem hlk, rfl⟩
    · rw [if_neg hmk] at hq
      exact absurd hq (List.not_mem_nil q)
  · rw [if_neg henc] at hq ⊢
    cases σ with
    | front => exact ⟨("double", doubleConfig), by simp [glassConfigsList], rfl⟩
    | left => exact absurd hq (List.not_mem_nil q)
    | right => exact absurd hq (List.not_mem_nil q)

/-- **C1**: per side, the visible glass parts come from at most one family:
two parts of distinct families (under that side's name suffix) are never
both visible after resolution, and with the enclosure on and the side's
material not `'glass'` every family part on that side is hidden. -/
theorem glass_family_exclusive_per_side (cfg : Config) (σ : Side)
    (cf cg : String × GlassConfig) (hcf : cf ∈ glassConfigsList)
    (hcg : cg ∈ glassConfigsList) (hne : cf.1 ≠ cg.1) (pf pg : String)
    (hpf : pf ∈ sectionHAllParts cf.2) (hpg : pg ∈ sectionHAllParts cg.2)
    (nf ng : Node) (hmf : nf.isMesh = true) (hmg : ng.isMesh = true)
    (hnf : nf.name = pf ++ sideSuffix σ) (hng : ng.name = pg ++ sideSuffix σ) :
    ((resolveNode cfg nf).visible = true → (resolveNode cfg ng).visible = false) ∧
    (cfg.enclosureEnabled = true → ¬(sideMaterialKey cfg σ = "glass") →
      (resolveNode cfg nf).visible = false) := by
  constructor
  · intro hvf
    cases hvg : (resolveNode cfg ng).visible with
    | false => rfl
    | true =>
      exfalso
      have haf := resolved_glasspart_visible_mem cfg σ pf nf
        (mem_allFamilyParts cf hcf pf hpf) hmf hnf hvf
      have hag := resolved_glasspart_visible_mem cfg σ pg ng
        (mem_allFamilyParts cg hcg pg hpg) hmg hng hvg
      obtain ⟨e, he, heq⟩ := activeFamilyParts_family cfg σ pf haf
      rw [heq] at haf hag
      have h1 : cf.1 = e.1 := by
        by_contra hx
        exact families_disjoint cf hcf e he hx pf hpf haf
      have h2 : cg.1 = e.1 := by
        by_contra hx
        exact families_disjoint cg hcg e he hx pg hpg hag
      exact hne (h1.trans h2.symm)
  · intro henc hmk
    cases hvf : (resolveNode cfg nf).visible with
    | false => rfl
    | true =>
      exfalso
      have haf := resolved_glasspart_visible_mem cfg σ pf nf
        (mem_allFamilyParts cf hcf pf hpf) hmf hnf hvf
      unfold activeFamilyParts at haf
      rw [if_pos henc, if_neg hmk] at haf
      exact absurd haf (List.not_mem_nil pf)

/-- Witness for C1 at the all-double configuration: on the front side the
double holder is visible, so the theorem hides the triple holder. -/
theorem glass_family_exclusive_per_side_witness :
    (resolveNode exampleCfgFlat (exampleNode "tripleglassholder")).visible = false :=
  (glass_family_exclusive_per_side exampleCfgFlat Side.front ("double", doubleConfig)
    ("triple", tripleConfig) (by simp [glassConfigsList]) (by simp [glassConfigsList])
    (by decide) "twoglassholder" "tripleglassholder" (by decide) (by decide)
    (exampleNode "twoglassholder") (exampleNode "tripleglassholder") rfl rfl
    (by decide) (by decide)).1 (by decide)

/-! ### Unknown-key fallback behaviour (C4) -/

/-- A configuration whose `glassType`, `metalMaterial` and `glassColor`
keys are all unknown, with no per-side glassType overrides. -/
def exampleCfgSmart : Config :=
  { exampleCfgFlat with
    glassType := "smartglass", metalMaterial := "chrome"
    tintedGlassEnabled := true, glassColor := "purple"
    sideEnclosureTypes :=
      { front := { material := some "glass", glassType := none }
        left := { material := some "glass", glassType := none }
        right := { material := some "glass", glassType := none } } }

/-- `exampleCfgSmart` with the documented default substituted for the
unknown `glassType` key. -/
def exampleCfgSmartDefaulted : Config := { exampleCfgSmart with glassType := "double" }

/-- C4 counterexample: an unknown `glassType` key does not produce the
node states of the default (`double`) configuration: the pass hides the
double glass panel that the defaulted configuration shows. -/
theorem unknown_glasstype_not_defaulted :
    (resolveNode exampleCfgSmart (exampleNode "oneglassleft")).visible = false ∧
    (resolveNode exampleCfgSmartDefaulted (exampleNode "oneglassleft")).visible = true := by
  decide

/-- **C4** (amended): the pass never fails on unknown keys, and each
fallback is: anthracite frame color for an unknown `metalMaterial`; the
clear tint color (a tinted `#ffffff` material, not the untinted clear
material) for an unknown `glassColor` with tinting on; `double` for an
unknown `glassType` only in `currentGlassConfig` (pillar scaling) — while
section H hides every glass family part on a side whose glass-type key
misses the table, rather than defaulting the side to `double`. -/
theorem unknown_key_fallbacks (cfg : Config) (σ : Side) (e : String × GlassConfig)
    (he : e ∈ glassConfigsList) (p : String) (hp : p ∈ sectionHAllParts e.2)
    (n : Node) (hm : n.isMesh = true) (hname : n.name = p ++ sideSuffix σ) :
    (cfg.metalMaterial ∉ ["anthracite", "black", "grey", "white"] →
      getFrameColor cfg.metalMaterial = getFrameColor "anthracite") ∧
    (cfg.tintedGlassEnabled = true → slookup GLASS_TINT_COLORS cfg.glassColor = none →
      getGlassMaterial cfg = Material.glassTinted "#ffffff" (3/10)) ∧
    (glassConfigsLookup cfg.glassType = none → currentGlassConfig cfg = doubleConfig) ∧
    (cfg.enclosureEnabled = true → glassConfigsLookup (sideGlassTypeKey cfg σ) = none →
      (resolveNode cfg n).visible = false) := by
  refine ⟨?_, ?_, ?_, ?_⟩
  · intro h
    have h1 : cfg.metalMaterial ≠ "anthracite" := fun hx => h (by simp [hx])
    have h2 : cfg.metalMaterial ≠ "black" := fun hx => h (by simp [hx])
    have h3 : cfg.metalMaterial ≠ "grey" := fun hx => h (by simp [hx])
    have h4 : cfg.metalMaterial ≠ "white" := fun hx => h (by simp [hx])
    simp [getFrameColor, h1, h2, h3, h4]
  · intro ht hq
    have hc : cfg.glassColor ≠ "clear" := by
      intro hx
      rw [hx] at hq
      exact absurd hq (by decide)
    unfold getGlassMaterial
    rw [hq]
    simp [ht, beq_eq_false_iff_ne.mpr hc]
  · intro h
    unfold currentGlassConfig
    rw [h]
    rfl
  · intro henc hlk
    cases hv : (resolveNode cfg n).visible with
    | false => rfl
    | true =>
      exfalso
      have haf := resolved_glasspart_visible_mem cfg σ p n
        (mem_allFamilyParts e he p hp) hm hname hv
      unfold activeFamilyParts at haf
      rw [if_pos henc] at haf
      by_cases hmk : sideMaterialKey cfg σ = "glass"
      · rw [if_pos hmk, hlk] at haf
        exact absurd haf (List.not_mem_nil p)
      · rw [if_neg hmk] at haf
        exact absurd haf (List.not_mem_nil p)

/-- Witness for C4's amended theorem at the all-unknown-keys
configuration, each hypothesis discharged concretely. -/
theorem unknown_key_fallbacks_witness :
    getFrameColor exampleCfgSmart.metalMaterial = getFrameColor "anthracite" ∧
    getGlassMaterial exampleCfgSmart = Material.glassTinted "#ffffff" (3/10) ∧
    currentGlassConfig exampleCfgSmart = doubleConfig ∧
    (resolveNode exampleCfgSmart (exampleNode "oneglassleft001")).visible = false :=
  let h := unknown_key_fallbacks exampleCfgSmart Side.left ("double", doubleConfig)
    (by simp [glassConfigsList]) "oneglassleft" (by decide)
    (exampleNode "oneglassleft001") rfl (by decide)
  ⟨h.1 (by decide), h.2.1 rfl (by decide), h.2.2.1 (by decide), h.2.2.2 rfl (by decide)⟩

end Cubesse
